import Mathlib

/-!
# Verification of the MoQT framing/parsing engine (quic-ly/moqt)

Shallow embedding of the repository's VarInt62 codec
(`src/moqt/src/serde/data_writer.rs`, `data_reader.rs`), the wire-type
combinators (`serde/wire_serialization.rs`), the control-message framer
(`moqt_framer.rs`) and the control-message parser (`moqt_parser.rs`,
`moqt_messages.rs`).

Conventions of the embedding:
* Rust `u64` values are `Nat`s; where unsigned wrap-around matters the
  operation is written out explicitly (e.g. bitwise NOT on `u64` is
  `0xffffffffffffffff ^^^ v`).
* Byte buffers (`Bytes`/`BytesMut`/`&[u8]`) are `List Nat` of byte values.
* Rust `String` values are kept as their UTF-8 byte lists; the
  `String::from_utf8` validation done by `DataReader::read_string_piece`
  is modelled by an explicit UTF-8 validity check.
* `std::time::Duration` is modelled as a `Nat` count of nanoseconds.
* The `DataWriter` writes into a fixed-capacity buffer: the framer
  allocates a buffer of exactly the computed length-on-wire and the
  final `writer.remaining() != 0` check of `serialize_control_message!`
  detects an under-write (the two-pass design of the framer).
-/

namespace Moqt

/-! ## serde/data_writer.rs : constants and DataWriter -/

def kVarInt62MaxValue : Nat := 0x3fffffffffffffff
def kVarInt62ErrorMask : Nat := 0xc000000000000000
def kVarInt62Mask8Bytes : Nat := 0x3fffffffc0000000
def kVarInt62Mask4Bytes : Nat := 0x000000003fffc000
def kVarInt62Mask2Bytes : Nat := 0x0000000000003fc0

/-- `DataWriter` over a fixed-capacity byte buffer: `cap` is the number of
bytes the underlying buffer can hold in total, `data` the bytes written so
far. -/
structure DataWriter where
  cap : Nat
  data : List Nat
deriving Repr, DecidableEq

def DataWriter.remaining (w : DataWriter) : Nat := w.cap - w.data.length

def DataWriter.putBytes (w : DataWriter) (bs : List Nat) : DataWriter :=
  { w with data := w.data ++ bs }

/-- `DataWriter::write_uint8`. -/
def DataWriter.write_uint8 (w : DataWriter) (v : Nat) : Bool × DataWriter :=
  if w.remaining < 1 then (false, w) else (true, w.putBytes [v])

/-- `DataWriter::write_bytes`. -/
def DataWriter.write_bytes (w : DataWriter) (bs : List Nat) : Bool × DataWriter :=
  if w.remaining < bs.length then (false, w) else (true, w.putBytes bs)

/-- `DataWriter::write_var_int62` (RFC 9000 variable-length integer,
minimum-length encoding chosen by the mask tests of the source). -/
def DataWriter.write_var_int62 (w : DataWriter) (value : Nat) : Bool × DataWriter :=
  let remaining_bytes := w.remaining
  if value &&& kVarInt62ErrorMask = 0 then
    if value &&& kVarInt62Mask8Bytes ≠ 0 then
      if remaining_bytes ≥ 8 then
        (true, w.putBytes [((value >>> 56) &&& 0x3f) + 0xc0, (value >>> 48) &&& 0xff,
          (value >>> 40) &&& 0xff, (value >>> 32) &&& 0xff, (value >>> 24) &&& 0xff,
          (value >>> 16) &&& 0xff, (value >>> 8) &&& 0xff, value &&& 0xff])
      else (false, w)
    else if value &&& kVarInt62Mask4Bytes ≠ 0 then
      if remaining_bytes ≥ 4 then
        (true, w.putBytes [((value >>> 24) &&& 0x3f) + 0x80, (value >>> 16) &&& 0xff,
          (value >>> 8) &&& 0xff, value &&& 0xff])
      else (false, w)
    else if value &&& kVarInt62Mask2Bytes ≠ 0 then
      if remaining_bytes ≥ 2 then
        (true, w.putBytes [((value >>> 8) &&& 0x3f) + 0x40, value &&& 0xff])
      else (false, w)
    else if remaining_bytes ≥ 1 then
      (true, w.putBytes [value &&& 0x3f])
    else (false, w)
  else (false, w)

/-- `DataWriter::get_var_int62_len`; the returned
`VariableLengthIntegerLength` enum is represented by its numeric value
(0 meaning "too large to encode"). -/
def DataWriter.get_var_int62_len (value : Nat) : Nat :=
  if value &&& kVarInt62ErrorMask ≠ 0 then 0
  else if value &&& kVarInt62Mask8Bytes ≠ 0 then 8
  else if value &&& kVarInt62Mask4Bytes ≠ 0 then 4
  else if value &&& kVarInt62Mask2Bytes ≠ 0 then 2
  else 1

/-! ## serde/data_reader.rs : DataReader

The reader is a cursor over a byte buffer; `consumed` counts the bytes
already read (the `bytes_read()` accessor used by the parser) and `rest`
holds the bytes not yet read. -/

structure DataReader where
  consumed : Nat
  rest : List Nat
deriving Repr, DecidableEq

def DataReader.remaining (r : DataReader) : Nat := r.rest.length

def DataReader.bytes_read (r : DataReader) : Nat := r.consumed

def DataReader.advance (r : DataReader) (n : Nat) : DataReader :=
  ⟨r.consumed + n, r.rest.drop n⟩

def DataReader.can_read (r : DataReader) (n : Nat) : Bool := n ≤ r.rest.length

/-- `DataReader::read_uint8`. -/
def DataReader.read_uint8 (r : DataReader) : Option (Nat × DataReader) :=
  match r.rest with
  | [] => none
  | b :: _ => some (b, r.advance 1)

/-- `DataReader::read_var_int62`: dispatch on the two high bits of the
first byte. -/
def DataReader.read_var_int62 (r : DataReader) : Option (Nat × DataReader) :=
  match r.rest with
  | [] => none
  | b0 :: tail =>
    if b0 &&& 0xc0 = 0xc0 then
      match tail with
      | b1 :: b2 :: b3 :: b4 :: b5 :: b6 :: b7 :: _ =>
        some (((b0 &&& 0x3f) <<< 56) + (b1 <<< 48) + (b2 <<< 40) + (b3 <<< 32) +
              (b4 <<< 24) + (b5 <<< 16) + (b6 <<< 8) + b7, r.advance 8)
      | _ => none
    else if b0 &&& 0xc0 = 0x80 then
      match tail with
      | b1 :: b2 :: b3 :: _ =>
        some (((b0 &&& 0x3f) <<< 24) + (b1 <<< 16) + (b2 <<< 8) + b3, r.advance 4)
      | _ => none
    else if b0 &&& 0xc0 = 0x40 then
      match tail with
      | b1 :: _ => some (((b0 &&& 0x3f) <<< 8) + b1, r.advance 2)
      | _ => none
    else if b0 &&& 0xc0 = 0x00 then
      some (b0 &&& 0x3f, r.advance 1)
    else none

/-- `DataReader::peek_var_int62_length`. -/
def DataReader.peek_var_int62_length (r : DataReader) : Nat :=
  match r.rest with
  | [] => 0
  | b :: _ =>
    match 1 <<< ((b &&& 0xc0) >>> 6) with
    | 0 => 0
    | 1 => 1
    | 2 => 2
    | 4 => 4
    | _ => 8

/-! ## Arithmetic facts about contiguous bit masks

Every mask used by the codec is a contiguous run of one-bits
`2^hi - 2^lo`; bitwise AND with such a run extracts the bit field
`v / 2^lo % 2^(hi-lo)` shifted back up. -/

theorem land_run (v lo hi : Nat) (h : lo ≤ hi) :
    v &&& (2 ^ hi - 2 ^ lo) = v / 2 ^ lo % 2 ^ (hi - lo) * 2 ^ lo := by
  have hsplit : (2 : Nat) ^ hi - 2 ^ lo = 2 ^ lo * (2 ^ (hi - lo) - 1) := by
    have hp : (2 : Nat) ^ lo * 2 ^ (hi - lo) = 2 ^ hi := by
      rw [← pow_add]
      congr 1
      omega
    have h1 : (1 : Nat) ≤ 2 ^ (hi - lo) := Nat.one_le_two_pow
    calc (2 : Nat) ^ hi - 2 ^ lo = 2 ^ lo * 2 ^ (hi - lo) - 2 ^ lo * 1 := by
          rw [hp, Nat.mul_one]
      _ = 2 ^ lo * (2 ^ (hi - lo) - 1) := by
          rw [Nat.mul_sub]
  apply Nat.eq_of_testBit_eq
  intro i
  rw [Nat.testBit_and, hsplit, Nat.testBit_mul_pow_two]
  rw [show v / 2 ^ lo % 2 ^ (hi - lo) * 2 ^ lo = 2 ^ lo * (v / 2 ^ lo % 2 ^ (hi - lo)) by ring]
  rw [Nat.testBit_mul_pow_two]
  by_cases hi1 : lo ≤ i
  · simp only [ge_iff_le, hi1, decide_True, Bool.true_and]
    rw [Nat.testBit_two_pow_sub_one, Nat.testBit_mod_two_pow]
    have : v / 2 ^ lo = v >>> lo := (Nat.shiftRight_eq_div_pow v lo).symm
    rw [this, Nat.testBit_shiftRight]
    have : lo + (i - lo) = i := by omega
    rw [this]
    cases hd : decide (i - lo < hi - lo) <;> simp [Bool.and_comm]
  · simp [hi1]

/-- Instances of `land_run` for the concrete masks of the codec, placed at
forms `omega` can consume. -/
theorem land_err_mask (v : Nat) :
    v &&& kVarInt62ErrorMask = v / 2 ^ 62 % 4 * 2 ^ 62 := by
  have := land_run v 62 64 (by omega)
  norm_num [kVarInt62ErrorMask] at this ⊢
  exact this

theorem land_mask8 (v : Nat) :
    v &&& kVarInt62Mask8Bytes = v / 2 ^ 30 % 2 ^ 32 * 2 ^ 30 := by
  have := land_run v 30 62 (by omega)
  norm_num [kVarInt62Mask8Bytes] at this ⊢
  exact this

theorem land_mask4 (v : Nat) :
    v &&& kVarInt62Mask4Bytes = v / 2 ^ 14 % 2 ^ 16 * 2 ^ 14 := by
  have := land_run v 14 30 (by omega)
  norm_num [kVarInt62Mask4Bytes] at this ⊢
  exact this

theorem land_mask2 (v : Nat) :
    v &&& kVarInt62Mask2Bytes = v / 2 ^ 6 % 2 ^ 8 * 2 ^ 6 := by
  have := land_run v 6 14 (by omega)
  norm_num [kVarInt62Mask2Bytes] at this ⊢
  exact this

theorem land_c0 (v : Nat) : v &&& 0xc0 = v / 2 ^ 6 % 4 * 2 ^ 6 := by
  have := land_run v 6 8 (by omega)
  norm_num at this ⊢
  exact this

theorem land_3f (v : Nat) : v &&& 0x3f = v % 64 := by
  have := Nat.and_pow_two_sub_one_eq_mod v 6
  norm_num at this
  exact this

theorem land_ff (v : Nat) : v &&& 0xff = v % 256 := by
  have := Nat.and_pow_two_sub_one_eq_mod v 8
  norm_num at this
  exact this

/-! ## VarInt62 round-trip -/

/-- Splitting a value modulo `2^(k+j)` into the bit field above `2^k` and
the remainder below it. -/
theorem mod_two_pow_split (v k j : Nat) :
    v % 2 ^ (k + j) = v % 2 ^ k + 2 ^ k * (v / 2 ^ k % 2 ^ j) := by
  rw [pow_add, Nat.mod_mul]

/-- Characterization of a successful `write_var_int62`: the bytes appended
are a minimum-length RFC 9000 encoding and `read_var_int62` recovers the
value from them (followed by any suffix), consuming exactly
`get_var_int62_len` bytes. -/
theorem write_var_int62_spec (v : Nat) (hv : v < 2 ^ 62) (w : DataWriter)
    (hroom : DataWriter.get_var_int62_len v ≤ w.remaining) :
    ∃ enc : List Nat,
      w.write_var_int62 v = (true, ⟨w.cap, w.data ++ enc⟩) ∧
      enc.length = DataWriter.get_var_int62_len v ∧
      ∀ rest c, DataReader.read_var_int62 ⟨c, enc ++ rest⟩ =
        some (v, ⟨c + DataWriter.get_var_int62_len v, rest⟩) := by
  have herr : v &&& kVarInt62ErrorMask = 0 := by
    rw [land_err_mask]
    have : v / 2 ^ 62 = 0 := Nat.div_eq_of_lt hv
    omega
  rcases Nat.lt_or_ge v 64 with h1 | h1
  · -- 1-byte encoding
    have e8 : v &&& kVarInt62Mask8Bytes = 0 := by rw [land_mask8]; omega
    have e4 : v &&& kVarInt62Mask4Bytes = 0 := by rw [land_mask4]; omega
    have e2 : v &&& kVarInt62Mask2Bytes = 0 := by rw [land_mask2]; omega
    have hlen : DataWriter.get_var_int62_len v = 1 := by
      simp [DataWriter.get_var_int62_len, herr, e8, e4, e2]
    rw [hlen] at hroom ⊢
    have hb : v &&& 0x3f = v := by rw [land_3f]; omega
    refine ⟨[v], ?_, rfl, ?_⟩
    · simp only [DataWriter.write_var_int62, herr, e8, e4, e2, DataWriter.putBytes, hb,
        ne_eq, not_true_eq_false, not_false_eq_true, ite_true, ite_false]
      rw [if_pos hroom]
    · intro rest c
      have hb0 : v &&& 0xc0 = 0 := by rw [land_c0]; omega
      simp [DataReader.read_var_int62, hb0, DataReader.advance, hb]
  · rcases Nat.lt_or_ge v 16384 with h2 | h2
    · -- 2-byte encoding
      have e8 : v &&& kVarInt62Mask8Bytes = 0 := by rw [land_mask8]; omega
      have e4 : v &&& kVarInt62Mask4Bytes = 0 := by rw [land_mask4]; omega
      have e2 : v &&& kVarInt62Mask2Bytes ≠ 0 := by rw [land_mask2]; omega
      have hlen : DataWriter.get_var_int62_len v = 2 := by
        simp [DataWriter.get_var_int62_len, herr, e8, e4, e2]
      rw [hlen] at hroom ⊢
      have hb0 : (v >>> 8) &&& 0x3f = v / 2 ^ 8 % 64 := by
        rw [Nat.shiftRight_eq_div_pow, land_3f]
      have hb1 : v &&& 0xff = v % 256 := land_ff v
      refine ⟨[v / 2 ^ 8 % 64 + 0x40, v % 256], ?_, rfl, ?_⟩
      · simp only [DataWriter.write_var_int62, herr, e8, e4, e2, DataWriter.putBytes,
          hb0, hb1, ne_eq, not_true_eq_false, not_false_eq_true, ite_true, ite_false]
        rw [if_pos hroom]
      · intro rest c
        have hc0 : (v / 2 ^ 8 % 64 + 0x40) &&& 0xc0 = 0x40 := by rw [land_c0]; omega
        have hd : (v / 2 ^ 8 % 64 + 0x40) &&& 0x3f = v / 2 ^ 8 % 64 := by
          rw [land_3f]; omega
        simp only [List.cons_append, List.nil_append, DataReader.read_var_int62, hc0, hd,
          DataReader.advance, List.drop_succ_cons, List.drop_zero, if_pos, Nat.shiftLeft_eq,
          Option.some.injEq, Prod.mk.injEq, DataReader.mk.injEq, and_true, true_and]
        norm_num
        have e1 := mod_two_pow_split v 8 6
        have ev : v % 2 ^ 14 = v := Nat.mod_eq_of_lt (by omega)
        norm_num at e1
        omega
    · rcases Nat.lt_or_ge v 1073741824 with h3 | h3
      · -- 4-byte encoding
        have e8 : v &&& kVarInt62Mask8Bytes = 0 := by rw [land_mask8]; omega
        have e4 : v &&& kVarInt62Mask4Bytes ≠ 0 := by rw [land_mask4]; omega
        have hlen : DataWriter.get_var_int62_len v = 4 := by
          simp [DataWriter.get_var_int62_len, herr, e8, e4]
        rw [hlen] at hroom ⊢
        have hb0 : (v >>> 24) &&& 0x3f = v / 2 ^ 24 % 64 := by
          rw [Nat.shiftRight_eq_div_pow, land_3f]
        have hb1 : (v >>> 16) &&& 0xff = v / 2 ^ 16 % 256 := by
          rw [Nat.shiftRight_eq_div_pow, land_ff]
        have hb2 : (v >>> 8) &&& 0xff = v / 2 ^ 8 % 256 := by
          rw [Nat.shiftRight_eq_div_pow, land_ff]
        have hb3 : v &&& 0xff = v % 256 := land_ff v
        refine ⟨[v / 2 ^ 24 % 64 + 0x80, v / 2 ^ 16 % 256, v / 2 ^ 8 % 256, v % 256],
          ?_, rfl, ?_⟩
        · simp only [DataWriter.write_var_int62, herr, e8, e4, DataWriter.putBytes,
            hb0, hb1, hb2, hb3, ne_eq, not_true_eq_false, not_false_eq_true, ite_true,
            ite_false]
          rw [if_pos hroom]
        · intro rest c
          have hc0 : (v / 2 ^ 24 % 64 + 0x80) &&& 0xc0 = 0x80 := by rw [land_c0]; omega
          have hd : (v / 2 ^ 24 % 64 + 0x80) &&& 0x3f = v / 2 ^ 24 % 64 := by
            rw [land_3f]; omega
          simp only [List.cons_append, List.nil_append, DataReader.read_var_int62, hc0, hd,
            DataReader.advance, List.drop_succ_cons, List.drop_zero, if_pos, Nat.shiftLeft_eq,
            Option.some.injEq, Prod.mk.injEq, DataReader.mk.injEq, and_true, true_and]
          norm_num
          have e1 := mod_two_pow_split v 24 6
          have e2 := mod_two_pow_split v 16 8
          have e3 := mod_two_pow_split v 8 8
          have ev : v % 2 ^ 30 = v := Nat.mod_eq_of_lt (by omega)
          norm_num at e1 e2 e3
          omega
      · -- 8-byte encoding
        have e8 : v &&& kVarInt62Mask8Bytes ≠ 0 := by rw [land_mask8]; omega
        have hlen : DataWriter.get_var_int62_len v = 8 := by
          simp [DataWriter.get_var_int62_len, herr, e8]
        rw [hlen] at hroom ⊢
        have hb0 : (v >>> 56) &&& 0x3f = v / 2 ^ 56 % 64 := by
          rw [Nat.shiftRight_eq_div_pow, land_3f]
        have hb1 : (v >>> 48) &&& 0xff = v / 2 ^ 48 % 256 := by
          rw [Nat.shiftRight_eq_div_pow, land_ff]
        have hb2 : (v >>> 40) &&& 0xff = v / 2 ^ 40 % 256 := by
          rw [Nat.shiftRight_eq_div_pow, land_ff]
        have hb3 : (v >>> 32) &&& 0xff = v / 2 ^ 32 % 256 := by
          rw [Nat.shiftRight_eq_div_pow, land_ff]
        have hb4 : (v >>> 24) &&& 0xff = v / 2 ^ 24 % 256 := by
          rw [Nat.shiftRight_eq_div_pow, land_ff]
        have hb5 : (v >>> 16) &&& 0xff = v / 2 ^ 16 % 256 := by
          rw [Nat.shiftRight_eq_div_pow, land_ff]
        have hb6 : (v >>> 8) &&& 0xff = v / 2 ^ 8 % 256 := by
          rw [Nat.shiftRight_eq_div_pow, land_ff]
        have hb7 : v &&& 0xff = v % 256 := land_ff v
        refine ⟨[v / 2 ^ 56 % 64 + 0xc0, v / 2 ^ 48 % 256, v / 2 ^ 40 % 256,
          v / 2 ^ 32 % 256, v / 2 ^ 24 % 256, v / 2 ^ 16 % 256, v / 2 ^ 8 % 256, v % 256],
          ?_, rfl, ?_⟩
        · simp only [DataWriter.write_var_int62, herr, e8, DataWriter.putBytes,
            hb0, hb1, hb2, hb3, hb4, hb5, hb6, hb7, ne_eq, not_true_eq_false,
            not_false_eq_true, ite_true, ite_false]
          rw [if_pos hroom]
        · intro rest c
          have hc0 : (v / 2 ^ 56 % 64 + 0xc0) &&& 0xc0 = 0xc0 := by rw [land_c0]; omega
          have hd : (v / 2 ^ 56 % 64 + 0xc0) &&& 0x3f = v / 2 ^ 56 % 64 := by
            rw [land_3f]; omega
          simp only [List.cons_append, List.nil_append, DataReader.read_var_int62, hc0, hd,
            DataReader.advance, List.drop_succ_cons, List.drop_zero, if_pos, Nat.shiftLeft_eq,
            Option.some.injEq, Prod.mk.injEq, DataReader.mk.injEq, and_true, true_and]
          norm_num
          have e1 := mod_two_pow_split v 56 6
          have e2 := mod_two_pow_split v 48 8
          have e3 := mod_two_pow_split v 40 8
          have e4a := mod_two_pow_split v 32 8
          have e5 := mod_two_pow_split v 24 8
          have e6 := mod_two_pow_split v 16 8
          have e7 := mod_two_pow_split v 8 8
          have ev : v % 2 ^ 62 = v := Nat.mod_eq_of_lt hv
          norm_num at e1 e2 e3 e4a e5 e6 e7
          omega

/-- For values with either of the two top bits set (not encodable in 62
bits), `write_var_int62` reports failure and leaves the buffer untouched. -/
theorem write_var_int62_out_of_range (v : Nat) (hlo : 2 ^ 62 ≤ v) (hhi : v < 2 ^ 64)
    (w : DataWriter) : w.write_var_int62 v = (false, w) := by
  have herr : v &&& kVarInt62ErrorMask ≠ 0 := by
    rw [land_err_mask]
    have h4 : v / 2 ^ 62 < 4 := by omega
    have h1 : 1 ≤ v / 2 ^ 62 := Nat.one_le_div_iff (by norm_num) |>.mpr hlo
    have : v / 2 ^ 62 % 4 = v / 2 ^ 62 := Nat.mod_eq_of_lt h4
    omega
  simp only [DataWriter.write_var_int62, herr, ne_eq, not_true_eq_false,
    not_false_eq_true, ite_true, ite_false, if_neg herr]

/-- The four possible encoded lengths for an encodable value. -/
theorem get_var_int62_len_cases (v : Nat) (hv : v < 2 ^ 62) :
    DataWriter.get_var_int62_len v = 1 ∨ DataWriter.get_var_int62_len v = 2 ∨
    DataWriter.get_var_int62_len v = 4 ∨ DataWriter.get_var_int62_len v = 8 := by
  have herr : v &&& kVarInt62ErrorMask = 0 := by
    rw [land_err_mask]
    have : v / 2 ^ 62 = 0 := Nat.div_eq_of_lt hv
    omega
  unfold DataWriter.get_var_int62_len
  rw [if_neg (by simp [herr])]
  by_cases c8 : v &&& kVarInt62Mask8Bytes ≠ 0
  · rw [if_pos c8]; tauto
  · rw [if_neg c8]
    by_cases c4 : v &&& kVarInt62Mask4Bytes ≠ 0
    · rw [if_pos c4]; tauto
    · rw [if_neg c4]
      by_cases c2 : v &&& kVarInt62Mask2Bytes ≠ 0
      · rw [if_pos c2]; tauto
      · rw [if_neg c2]; tauto

/-- C2: for every `v` in `[0, 2^62)`, `DataWriter::write_var_int62 v`
succeeds (given buffer room for its minimal encoding), appends exactly
`get_var_int62_len v` bytes with that length in `{1, 2, 4, 8}`, and
`DataReader::read_var_int62` applied to those bytes (with any suffix)
returns `v` consuming exactly those bytes; for every `u64` value
`v ≥ 2^62`, `write_var_int62` returns `false` and writes nothing. -/
theorem claim_C2 (v : Nat) (hv : v < 2 ^ 64) :
    (v < 2 ^ 62 →
      (DataWriter.get_var_int62_len v = 1 ∨ DataWriter.get_var_int62_len v = 2 ∨
       DataWriter.get_var_int62_len v = 4 ∨ DataWriter.get_var_int62_len v = 8) ∧
      ∀ w : DataWriter, DataWriter.get_var_int62_len v ≤ w.remaining →
        ∃ enc : List Nat, w.write_var_int62 v = (true, ⟨w.cap, w.data ++ enc⟩) ∧
          enc.length = DataWriter.get_var_int62_len v ∧
          ∀ rest c, DataReader.read_var_int62 ⟨c, enc ++ rest⟩ =
            some (v, ⟨c + DataWriter.get_var_int62_len v, rest⟩)) ∧
    (2 ^ 62 ≤ v → ∀ w : DataWriter, w.write_var_int62 v = (false, w)) := by
  constructor
  · intro hlt
    exact ⟨get_var_int62_len_cases v hlt, fun w hroom => write_var_int62_spec v hlt w hroom⟩
  · intro hge w
    exact write_var_int62_out_of_range v hge hv w

/-- Witness for C2 at `v = 300` (2-byte encoding `41 2c`). -/
theorem claim_C2_witness :
    (DataWriter.mk 2 []).write_var_int62 300 = (true, ⟨2, [0x41, 0x2c]⟩) ∧
    DataReader.read_var_int62 ⟨0, [0x41, 0x2c]⟩ = some (300, ⟨2, []⟩) := by
  obtain ⟨h1, -⟩ := claim_C2 300 (by norm_num)
  obtain ⟨-, h2⟩ := h1 (by norm_num)
  have hlen : DataWriter.get_var_int62_len 300 = 2 := by decide
  obtain ⟨enc, he, hel, hrd⟩ := h2 ⟨2, []⟩ (by rw [hlen]; decide)
  have hw : (DataWriter.mk 2 []).write_var_int62 300 = (true, ⟨2, [0x41, 0x2c]⟩) := by decide
  have henc : enc = [0x41, 0x2c] := by
    have h := he.symm.trans hw
    simpa using h
  subst henc
  refine ⟨hw, ?_⟩
  have := hrd [] 0
  rw [hlen] at this
  simpa using this

/-! ## Remaining DataReader operations (strings, UTF-8)

`DataReader::read_string_piece` converts the bytes read into a Rust
`String` via `String::from_utf8`, failing on invalid UTF-8; strings are
modelled as their UTF-8 byte lists, so the validation is explicit. -/

/-- UTF-8 continuation byte (`0x80..=0xbf`). -/
def utf8ContByte (b : Nat) : Bool := 0x80 ≤ b && b ≤ 0xbf

/-- RFC 3629 UTF-8 validity of a byte list, as enforced by Rust's
`String::from_utf8`. -/
def utf8Valid : List Nat → Bool
  | [] => true
  | b :: rest =>
    if b ≤ 0x7f then utf8Valid rest
    else if 0xc2 ≤ b ∧ b ≤ 0xdf then
      match rest with
      | c1 :: rest2 => utf8ContByte c1 && utf8Valid rest2
      | [] => false
    else if b = 0xe0 then
      match rest with
      | c1 :: c2 :: rest3 =>
        (0xa0 ≤ c1 && c1 ≤ 0xbf) && utf8ContByte c2 && utf8Valid rest3
      | _ => false
    else if (0xe1 ≤ b ∧ b ≤ 0xec) ∨ b = 0xee ∨ b = 0xef then
      match rest with
      | c1 :: c2 :: rest3 => utf8ContByte c1 && utf8ContByte c2 && utf8Valid rest3
      | _ => false
    else if b = 0xed then
      match rest with
      | c1 :: c2 :: rest3 =>
        (0x80 ≤ c1 && c1 ≤ 0x9f) && utf8ContByte c2 && utf8Valid rest3
      | _ => false
    else if b = 0xf0 then
      match rest with
      | c1 :: c2 :: c3 :: rest4 =>
        (0x90 ≤ c1 && c1 ≤ 0xbf) && utf8ContByte c2 && utf8ContByte c3 && utf8Valid rest4
      | _ => false
    else if 0xf1 ≤ b ∧ b ≤ 0xf3 then
      match rest with
      | c1 :: c2 :: c3 :: rest4 =>
        utf8ContByte c1 && utf8ContByte c2 && utf8ContByte c3 && utf8Valid rest4
      | _ => false
    else if b = 0xf4 then
      match rest with
      | c1 :: c2 :: c3 :: rest4 =>
        (0x80 ≤ c1 && c1 ≤ 0x8f) && utf8ContByte c2 && utf8ContByte c3 && utf8Valid rest4
      | _ => false
    else false

/-- `DataReader::read_string_piece`: reads `n` bytes and validates them as
UTF-8 (the `String::from_utf8` conversion of the source); the string is
returned as its byte list. -/
def DataReader.read_string_piece (r : DataReader) (n : Nat) :
    Option (List Nat × DataReader) :=
  if ¬ r.can_read n then none
  else
    let bytes := r.rest.take n
    if utf8Valid bytes then some (bytes, r.advance n) else none

/-- `DataReader::read_string_piece_var_int62`. -/
def DataReader.read_string_piece_var_int62 (r : DataReader) :
    Option (List Nat × DataReader) :=
  match r.read_var_int62 with
  | none => none
  | some (l, r) => r.read_string_piece l

/-- `DataReader::read_string_var_int62` (alias of the above in the
source). -/
def DataReader.read_string_var_int62 (r : DataReader) :
    Option (List Nat × DataReader) :=
  r.read_string_piece_var_int62

/-! ## moqt_messages.rs : enums, message structures -/

def kDraft07Version : Nat := 0xff000007

/-- The maximum buffered size of a non-OBJECT message
(`kMaxMessageHeaderSize`). -/
def kMaxMessageHeaderSize : Nat := 2048

inductive MoqtMessageType
  | kSubscribeUpdate
  | kSubscribe
  | kSubscribeOk
  | kSubscribeError
  | kAnnounce
  | kAnnounceOk
  | kAnnounceError
  | kUnannounce
  | kUnsubscribe
  | kSubscribeDone
  | kAnnounceCancel
  | kTrackStatusRequest
  | kTrackStatus
  | kGoAway
  | kSubscribeAnnounces
  | kSubscribeAnnouncesOk
  | kSubscribeAnnouncesError
  | kUnsubscribeAnnounces
  | kMaxSubscribeId
  | kFetch
  | kFetchCancel
  | kFetchOk
  | kFetchError
  | kClientSetup
  | kServerSetup
  | kObjectAck
deriving Repr, DecidableEq

/-- Wire value of each message type (the enum discriminants of the
source). -/
def MoqtMessageType.wireValue : MoqtMessageType → Nat
  | .kSubscribeUpdate => 0x02
  | .kSubscribe => 0x03
  | .kSubscribeOk => 0x04
  | .kSubscribeError => 0x05
  | .kAnnounce => 0x06
  | .kAnnounceOk => 0x07
  | .kAnnounceError => 0x08
  | .kUnannounce => 0x09
  | .kUnsubscribe => 0x0a
  | .kSubscribeDone => 0x0b
  | .kAnnounceCancel => 0x0c
  | .kTrackStatusRequest => 0x0d
  | .kTrackStatus => 0x0e
  | .kGoAway => 0x10
  | .kSubscribeAnnounces => 0x11
  | .kSubscribeAnnouncesOk => 0x12
  | .kSubscribeAnnouncesError => 0x13
  | .kUnsubscribeAnnounces => 0x14
  | .kMaxSubscribeId => 0x15
  | .kFetch => 0x16
  | .kFetchCancel => 0x17
  | .kFetchOk => 0x18
  | .kFetchError => 0x19
  | .kClientSetup => 0x40
  | .kServerSetup => 0x41
  | .kObjectAck => 0x3184

/-- `TryFrom<u64> for MoqtMessageType`. -/
def MoqtMessageType.tryFrom (value : Nat) : Option MoqtMessageType :=
  if value = 0x02 then some .kSubscribeUpdate
  else if value = 0x03 then some .kSubscribe
  else if value = 0x04 then some .kSubscribeOk
  else if value = 0x05 then some .kSubscribeError
  else if value = 0x06 then some .kAnnounce
  else if value = 0x07 then some .kAnnounceOk
  else if value = 0x08 then some .kAnnounceError
  else if value = 0x09 then some .kUnannounce
  else if value = 0x0a then some .kUnsubscribe
  else if value = 0x0b then some .kSubscribeDone
  else if value = 0x0c then some .kAnnounceCancel
  else if value = 0x0d then some .kTrackStatusRequest
  else if value = 0x0e then some .kTrackStatus
  else if value = 0x10 then some .kGoAway
  else if value = 0x11 then some .kSubscribeAnnounces
  else if value = 0x12 then some .kSubscribeAnnouncesOk
  else if value = 0x13 then some .kSubscribeAnnouncesError
  else if value = 0x14 then some .kUnsubscribeAnnounces
  else if value = 0x15 then some .kMaxSubscribeId
  else if value = 0x16 then some .kFetch
  else if value = 0x17 then some .kFetchCancel
  else if value = 0x18 then some .kFetchOk
  else if value = 0x19 then some .kFetchError
  else if value = 0x40 then some .kClientSetup
  else if value = 0x41 then some .kServerSetup
  else if value = 0x3184 then some .kObjectAck
  else none

inductive MoqtError
  | kInternalError
  | kUnauthorized
  | kProtocolViolation
  | kDuplicateTrackAlias
  | kParameterLengthMismatch
  | kTooManySubscribes
  | kGoawayTimeout
deriving Repr, DecidableEq

inductive MoqtRole
  | kPublisher
  | kSubscriber
  | kPubSub
deriving Repr, DecidableEq

/-- `TryFrom<u64> for MoqtRole`. -/
def MoqtRole.tryFrom (value : Nat) : Option MoqtRole :=
  if value = 0x1 then some .kPublisher
  else if value = 0x2 then some .kSubscriber
  else if value = 0x3 then some .kPubSub
  else none

/-- `MoqtRole` wire values (enum discriminants). -/
def MoqtRole.wireValue : MoqtRole → Nat
  | .kPublisher => 0x1
  | .kSubscriber => 0x2
  | .kPubSub => 0x3

inductive MoqtSetupParameter
  | kRole
  | kPath
  | kMaxSubscribeId
  | kSupportObjectAcks
deriving Repr, DecidableEq

/-- Enum discriminants of `MoqtSetupParameter` (note
`kSupportObjectAcks = 0xbbf1439`). -/
def MoqtSetupParameter.wireValue : MoqtSetupParameter → Nat
  | .kRole => 0x0
  | .kPath => 0x1
  | .kMaxSubscribeId => 0x2
  | .kSupportObjectAcks => 0xbbf1439

/-- `TryFrom<u64> for MoqtSetupParameter`, exactly as in the source: the
arm for `kSupportObjectAcks` matches `0x3`, not the declared discriminant
`0xbbf1439`. -/
def MoqtSetupParameter.tryFrom (value : Nat) : Option MoqtSetupParameter :=
  if value = 0x0 then some .kRole
  else if value = 0x1 then some .kPath
  else if value = 0x2 then some .kMaxSubscribeId
  else if value = 0x3 then some .kSupportObjectAcks
  else none

inductive MoqtTrackRequestParameter
  | kAuthorizationInfo
  | kDeliveryTimeout
  | kMaxCacheDuration
  | kOackWindowSize
deriving Repr, DecidableEq

def MoqtTrackRequestParameter.wireValue : MoqtTrackRequestParameter → Nat
  | .kAuthorizationInfo => 0x2
  | .kDeliveryTimeout => 0x3
  | .kMaxCacheDuration => 0x4
  | .kOackWindowSize => 0xbbf1439

/-- `TryFrom<u64> for MoqtTrackRequestParameter`. -/
def MoqtTrackRequestParameter.tryFrom (value : Nat) :
    Option MoqtTrackRequestParameter :=
  if value = 0x2 then some .kAuthorizationInfo
  else if value = 0x3 then some .kDeliveryTimeout
  else if value = 0x4 then some .kMaxCacheDuration
  else if value = 0xbbf1439 then some .kOackWindowSize
  else none

inductive MoqtAnnounceErrorCode
  | kInternalError
  | kAnnounceNotSupported
deriving Repr, DecidableEq

def MoqtAnnounceErrorCode.tryFrom (value : Nat) : Option MoqtAnnounceErrorCode :=
  if value = 0x0 then some .kInternalError
  else if value = 0x1 then some .kAnnounceNotSupported
  else none

def MoqtAnnounceErrorCode.wireValue : MoqtAnnounceErrorCode → Nat
  | .kInternalError => 0
  | .kAnnounceNotSupported => 1

inductive SubscribeErrorCode
  | kInternalError
  | kInvalidRange
  | kRetryTrackAlias
  | kTrackDoesNotExist
  | kUnauthorized
  | kTimeout
deriving Repr, DecidableEq

def SubscribeErrorCode.tryFrom (value : Nat) : Option SubscribeErrorCode :=
  if value = 0x0 then some .kInternalError
  else if value = 0x1 then some .kInvalidRange
  else if value = 0x2 then some .kRetryTrackAlias
  else if value = 0x3 then some .kTrackDoesNotExist
  else if value = 0x4 then some .kUnauthorized
  else if value = 0x5 then some .kTimeout
  else none

def SubscribeErrorCode.wireValue : SubscribeErrorCode → Nat
  | .kInternalError => 0x0
  | .kInvalidRange => 0x1
  | .kRetryTrackAlias => 0x2
  | .kTrackDoesNotExist => 0x3
  | .kUnauthorized => 0x4
  | .kTimeout => 0x5

inductive SubscribeDoneCode
  | kUnsubscribed
  | kInternalError
  | kUnauthorized
  | kTrackEnded
  | kSubscriptionEnded
  | kGoingAway
  | kExpired
deriving Repr, DecidableEq

def SubscribeDoneCode.tryFrom (value : Nat) : Option SubscribeDoneCode :=
  if value = 0x0 then some .kUnsubscribed
  else if value = 0x1 then some .kInternalError
  else if value = 0x2 then some .kUnauthorized
  else if value = 0x3 then some .kTrackEnded
  else if value = 0x4 then some .kSubscriptionEnded
  else if value = 0x5 then some .kGoingAway
  else if value = 0x6 then some .kExpired
  else none

def SubscribeDoneCode.wireValue : SubscribeDoneCode → Nat
  | .kUnsubscribed => 0x0
  | .kInternalError => 0x1
  | .kUnauthorized => 0x2
  | .kTrackEnded => 0x3
  | .kSubscriptionEnded => 0x4
  | .kGoingAway => 0x5
  | .kExpired => 0x6

inductive MoqtTrackStatusCode
  | kInProgress
  | kDoesNotExist
  | kNotYetBegun
  | kFinished
  | kStatusNotAvailable
deriving Repr, DecidableEq

def MoqtTrackStatusCode.tryFrom (value : Nat) : Option MoqtTrackStatusCode :=
  if value = 0x0 then some .kInProgress
  else if value = 0x1 then some .kDoesNotExist
  else if value = 0x2 then some .kNotYetBegun
  else if value = 0x3 then some .kFinished
  else if value = 0x4 then some .kStatusNotAvailable
  else none

def MoqtTrackStatusCode.wireValue : MoqtTrackStatusCode → Nat
  | .kInProgress => 0x0
  | .kDoesNotExist => 0x1
  | .kNotYetBegun => 0x2
  | .kFinished => 0x3
  | .kStatusNotAvailable => 0x4

inductive MoqtFilterType
  | kNone
  | kLatestGroup
  | kLatestObject
  | kAbsoluteStart
  | kAbsoluteRange
deriving Repr, DecidableEq

def MoqtFilterType.tryFrom (value : Nat) : Option MoqtFilterType :=
  if value = 0x0 then some .kNone
  else if value = 0x1 then some .kLatestGroup
  else if value = 0x2 then some .kLatestObject
  else if value = 0x3 then some .kAbsoluteStart
  else if value = 0x4 then some .kAbsoluteRange
  else none

def MoqtFilterType.wireValue : MoqtFilterType → Nat
  | .kNone => 0x0
  | .kLatestGroup => 0x1
  | .kLatestObject => 0x2
  | .kAbsoluteStart => 0x3
  | .kAbsoluteRange => 0x4

/-- Modelled from the spec: `MoqtDeliveryOrder` lives in
`moqt_priority.rs`, which is not present under `src/`; per the spec's
priority-ordering section a subscription's group order is ascending or
descending, framed as `0x01`/`0x02` by `wire_delivery_order` in
`moqt_framer.rs`. -/
inductive MoqtDeliveryOrder
  | kAscending
  | kDescending
deriving Repr, DecidableEq

/-- Modelled from the spec: `TryFrom<u8> for MoqtDeliveryOrder`
(`moqt_priority.rs` is missing from `src/`); accepts exactly the wire
values `0x01` and `0x02` that `wire_delivery_order` produces. -/
def MoqtDeliveryOrder.tryFrom (value : Nat) : Option MoqtDeliveryOrder :=
  if value = 0x01 then some .kAscending
  else if value = 0x02 then some .kDescending
  else none

/-- Rust `std::time::Duration`, modelled as a count of nanoseconds. -/
abbrev Duration := Nat

def Duration.from_millis (n : Nat) : Duration := n * 1000000

def Duration.from_micros (n : Nat) : Duration := n * 1000

def Duration.as_millis (d : Duration) : Nat := d / 1000000

def Duration.as_micros (d : Duration) : Nat := d / 1000

def Duration.is_zero (d : Duration) : Bool := d = 0

/-- Bitwise NOT on a Rust `u64`. -/
def u64Not (v : Nat) : Nat := 0xffffffffffffffff ^^^ v

/-- `FullTrackName`: a tuple of name elements (each a byte-list
string). -/
structure FullTrackName where
  tuple : List (List Nat)
deriving Repr, DecidableEq

def FullTrackName.new : FullTrackName := ⟨[]⟩

def FullTrackName.add_element (n : FullTrackName) (e : List Nat) : FullTrackName :=
  ⟨n.tuple ++ [e]⟩

structure FullSequence where
  group : Nat
  subgroup : Nat
  object : Nat
deriving Repr, DecidableEq

def FullSequence.new (group subgroup object : Nat) : FullSequence :=
  ⟨group, subgroup, object⟩

structure MoqtSubscribeParameters where
  authorization_info : Option (List Nat) := none
  delivery_timeout : Option Duration := none
  max_cache_duration : Option Duration := none
  object_ack_window : Option Duration := none
deriving Repr, DecidableEq

structure MoqtClientSetup where
  supported_versions : List Nat := []
  role : Option MoqtRole := none
  path : Option (List Nat) := none
  max_subscribe_id : Option Nat := none
  supports_object_ack : Bool := false
deriving Repr, DecidableEq

structure MoqtServerSetup where
  selected_version : Nat := 0
  role : Option MoqtRole := none
  max_subscribe_id : Option Nat := none
  supports_object_ack : Bool := false
deriving Repr, DecidableEq

structure MoqtSubscribe where
  subscribe_id : Nat := 0
  track_alias : Nat := 0
  full_track_name : FullTrackName := ⟨[]⟩
  subscriber_priority : Nat := 0
  group_order : Option MoqtDeliveryOrder := none
  start_group : Option Nat := none
  start_object : Option Nat := none
  end_group : Option Nat := none
  end_object : Option Nat := none
  parameters : MoqtSubscribeParameters := {}
deriving Repr, DecidableEq

structure MoqtSubscribeOk where
  subscribe_id : Nat := 0
  expires : Duration := 0
  group_order : MoqtDeliveryOrder := .kAscending
  largest_id : Option FullSequence := none
  parameters : MoqtSubscribeParameters := {}
deriving Repr, DecidableEq

structure MoqtSubscribeError where
  subscribe_id : Nat
  error_code : SubscribeErrorCode
  reason_phrase : List Nat
  track_alias : Nat
deriving Repr, DecidableEq

structure MoqtUnsubscribe where
  subscribe_id : Nat
deriving Repr, DecidableEq

structure MoqtSubscribeDone where
  subscribe_id : Nat
  status_code : SubscribeDoneCode
  reason_phrase : List Nat
  final_id : Option FullSequence
deriving Repr, DecidableEq

structure MoqtSubscribeUpdate where
  subscribe_id : Nat := 0
  start_group : Nat := 0
  start_object : Nat := 0
  end_group : Option Nat := none
  end_object : Option Nat := none
  subscriber_priority : Nat := 0
  parameters : MoqtSubscribeParameters := {}
deriving Repr, DecidableEq

structure MoqtAnnounce where
  track_namespace : FullTrackName
  parameters : MoqtSubscribeParameters
deriving Repr, DecidableEq

structure MoqtAnnounceOk where
  track_namespace : FullTrackName
deriving Repr, DecidableEq

structure MoqtAnnounceError where
  track_namespace : FullTrackName
  error_code : MoqtAnnounceErrorCode
  reason_phrase : List Nat
deriving Repr, DecidableEq

structure MoqtAnnounceCancel where
  track_namespace : FullTrackName
  error_code : MoqtAnnounceErrorCode
  reason_phrase : List Nat
deriving Repr, DecidableEq

structure MoqtTrackStatusRequest where
  full_track_name : FullTrackName
deriving Repr, DecidableEq

structure MoqtUnannounce where
  track_namespace : FullTrackName
deriving Repr, DecidableEq

structure MoqtTrackStatus where
  full_track_name : FullTrackName
  status_code : MoqtTrackStatusCode
  last_group : Nat
  last_object : Nat
deriving Repr, DecidableEq

structure MoqtGoAway where
  new_session_uri : List Nat
deriving Repr, DecidableEq

structure MoqtSubscribeAnnounces where
  track_namespace : FullTrackName
  parameters : MoqtSubscribeParameters
deriving Repr, DecidableEq

structure MoqtSubscribeAnnouncesOk where
  track_namespace : FullTrackName
deriving Repr, DecidableEq

structure MoqtSubscribeAnnouncesError where
  track_namespace : FullTrackName
  error_code : SubscribeErrorCode
  reason_phrase : List Nat
deriving Repr, DecidableEq

structure MoqtUnsubscribeAnnounces where
  track_namespace : FullTrackName
deriving Repr, DecidableEq

structure MoqtMaxSubscribeId where
  max_subscribe_id : Nat
deriving Repr, DecidableEq

structure MoqtFetch where
  subscribe_id : Nat := 0
  full_track_name : FullTrackName := ⟨[]⟩
  subscriber_priority : Nat := 0
  group_order : Option MoqtDeliveryOrder := none
  start_object : FullSequence := ⟨0, 0, 0⟩
  end_group : Nat := 0
  end_object : Option Nat := none
  parameters : MoqtSubscribeParameters := {}
deriving Repr, DecidableEq

structure MoqtFetchCancel where
  subscribe_id : Nat
deriving Repr, DecidableEq

structure MoqtFetchOk where
  subscribe_id : Nat := 0
  group_order : MoqtDeliveryOrder := .kAscending
  largest_id : FullSequence := ⟨0, 0, 0⟩
  parameters : MoqtSubscribeParameters := {}
deriving Repr, DecidableEq

structure MoqtFetchError where
  subscribe_id : Nat
  error_code : SubscribeErrorCode
  reason_phrase : List Nat
deriving Repr, DecidableEq

structure MoqtObjectAck where
  subscribe_id : Nat
  group_id : Nat
  object_id : Nat
  delta_from_deadline : Duration
deriving Repr, DecidableEq

/-- `get_filter_type` of `moqt_messages.rs`: deduce the filter type from
which of the four range fields are present. -/
def get_filter_type (message : MoqtSubscribe) : MoqtFilterType :=
  if message.end_group.isNone ∧ message.end_object.isSome then .kNone
  else
    let has_start := message.start_group.isSome ∧ message.start_object.isSome
    match message.start_group, message.end_group with
    | some start_group, some end_group =>
      if has_start then
        if end_group < start_group then .kNone
        else if end_group = start_group then
          match message.start_object, message.end_object with
          | some start_object, some end_object =>
            if end_object ≤ start_object then
              if end_object < start_object then .kNone
              else .kAbsoluteStart
            else .kAbsoluteRange
          | _, _ => .kAbsoluteRange
        else .kAbsoluteRange
      else .kNone
    | _, _ =>
      if has_start then .kAbsoluteStart
      else if message.start_group.isNone then
        match message.start_object with
        | some start_object => if start_object = 0 then .kLatestGroup else .kNone
        | none => .kLatestObject
      else .kNone

/-! ## moqt_parser.rs : control-message parser

Each `process_*` decoder of `MoqtControlParser` is embedded as a pure
function of the reader; its only effects in the source are at most one
`self.parse_error(...)` immediately followed by `return Err` and a single
`push_back` of the decoded message event just before `Ok`, so a decoder
returns `Except` of either the pushed error (or `none` for a silently
propagated reader error) or the message event together with
`reader.bytes_read()`. -/

inductive MoqtControlParserEvent
  | onClientSetupMessage (m : MoqtClientSetup)
  | onServerSetupMessage (m : MoqtServerSetup)
  | onSubscribeMessage (m : MoqtSubscribe)
  | onSubscribeOkMessage (m : MoqtSubscribeOk)
  | onSubscribeErrorMessage (m : MoqtSubscribeError)
  | onUnsubscribeMessage (m : MoqtUnsubscribe)
  | onSubscribeDoneMessage (m : MoqtSubscribeDone)
  | onSubscribeUpdateMessage (m : MoqtSubscribeUpdate)
  | onAnnounceMessage (m : MoqtAnnounce)
  | onAnnounceOkMessage (m : MoqtAnnounceOk)
  | onAnnounceErrorMessage (m : MoqtAnnounceError)
  | onAnnounceCancelMessage (m : MoqtAnnounceCancel)
  | onTrackStatusRequestMessage (m : MoqtTrackStatusRequest)
  | onUnannounceMessage (m : MoqtUnannounce)
  | onTrackStatusMessage (m : MoqtTrackStatus)
  | onGoAwayMessage (m : MoqtGoAway)
  | onSubscribeAnnouncesMessage (m : MoqtSubscribeAnnounces)
  | onSubscribeAnnouncesOkMessage (m : MoqtSubscribeAnnouncesOk)
  | onSubscribeAnnouncesErrorMessage (m : MoqtSubscribeAnnouncesError)
  | onUnsubscribeAnnouncesMessage (m : MoqtUnsubscribeAnnounces)
  | onMaxSubscribeIdMessage (m : MoqtMaxSubscribeId)
  | onFetchMessage (m : MoqtFetch)
  | onFetchCancelMessage (m : MoqtFetchCancel)
  | onFetchOkMessage (m : MoqtFetchOk)
  | onFetchErrorMessage (m : MoqtFetchError)
  | onObjectAckMessage (m : MoqtObjectAck)
  | onParsingError (e : MoqtError) (reason : String)
deriving Repr, DecidableEq

/-- The error side of a decoder: `some (kind, reason)` when the decoder
called `self.parse_error(kind, reason)` before returning `Err`, `none`
when the `Err` was propagated silently (reader errors, `map_err`). -/
abbrev ProcErr := Option (MoqtError × String)

abbrev ProcM (α : Type) := Except ProcErr α

/-- When the source wraps a failed helper in a `match` that calls
`parse_error` itself, only the FIRST `parse_error` is pushed (the method
latches), so an error that already carries a push wins over the
handler's. -/
def latchErr (e : ProcErr) (alt : MoqtError × String) : ProcErr :=
  match e with
  | some x => some x
  | none => some alt

def rdVarInt62 (r : DataReader) : ProcM (Nat × DataReader) :=
  match r.read_var_int62 with
  | none => throw none
  | some x => pure x

def rdUint8 (r : DataReader) : ProcM (Nat × DataReader) :=
  match r.read_uint8 with
  | none => throw none
  | some x => pure x

def rdStringVarInt62 (r : DataReader) : ProcM (List Nat × DataReader) :=
  match r.read_string_var_int62 with
  | none => throw none
  | some x => pure x

/-- `parse_delivery_order` (free function of `moqt_parser.rs`); `none`
result is the source's `Err(InvalidInput)`. -/
def parse_delivery_order (raw_value : Nat) : Option (Option MoqtDeliveryOrder) :=
  if raw_value = 0x00 then some none
  else if raw_value = 0x01 then some (some .kAscending)
  else if raw_value = 0x02 then some (some .kDescending)
  else none

/-- `signed_varint_unserialized_form`: two's-complement decoding of the
sign-in-low-bit representation, on `u64`. -/
def signed_varint_unserialized_form (value : Nat) : Nat :=
  if value &&& 0x01 ≠ 0 then (u64Not (value >>> 1) + 1) % 2 ^ 64
  else value >>> 1

/-- `MoqtControlParser::string_view_to_var_int`. -/
def string_view_to_var_int (sv : List Nat) : ProcM Nat :=
  let r : DataReader := ⟨0, sv⟩
  if r.peek_var_int62_length ≠ sv.length then
    throw (some (.kParameterLengthMismatch, "Parameter length does not match varint encoding"))
  else
    match r.read_var_int62 with
    | none => throw none
    | some (v, _) => pure v

/-- `MoqtControlParser::read_parameter`. -/
def read_parameter (r : DataReader) : ProcM ((Nat × List Nat) × DataReader) := do
  let (t, r) ← rdVarInt62 r
  let (v, r) ← rdStringVarInt62 r
  pure ((t, v), r)

/-- Loop body of `MoqtControlParser::read_track_namespace`. -/
def read_track_namespace_elems (ftn : FullTrackName) (n : Nat) (r : DataReader) :
    ProcM (FullTrackName × DataReader) :=
  match n with
  | 0 => pure (ftn, r)
  | n + 1 => do
    let (element, r) ← rdStringVarInt62 r
    read_track_namespace_elems (ftn.add_element element) n r

/-- `MoqtControlParser::read_track_namespace`. -/
def read_track_namespace (r : DataReader) : ProcM (FullTrackName × DataReader) := do
  let (num_elements, r) ← rdVarInt62 r
  read_track_namespace_elems FullTrackName.new num_elements r

/-- Loop body of `MoqtControlParser::read_subscribe_parameters` (`for _ in
0..num_params`). -/
def read_subscribe_parameters_loop (params : MoqtSubscribeParameters) (n : Nat)
    (r : DataReader) : ProcM (MoqtSubscribeParameters × DataReader) :=
  match n with
  | 0 => pure (params, r)
  | n + 1 => do
    let ((t, value), r) ← read_parameter r
    match MoqtTrackRequestParameter.tryFrom t with
    | none => read_subscribe_parameters_loop params n r
    | some .kAuthorizationInfo =>
      if params.authorization_info.isSome then
        throw (some (.kProtocolViolation, "AUTHORIZATION_INFO parameter appears twice"))
      else
        read_subscribe_parameters_loop { params with authorization_info := some value } n r
    | some .kDeliveryTimeout =>
      if params.delivery_timeout.isSome then
        throw (some (.kProtocolViolation, "DELIVERY_TIMEOUT parameter appears twice"))
      else do
        let raw_value ← string_view_to_var_int value
        read_subscribe_parameters_loop
          { params with delivery_timeout := some (Duration.from_millis raw_value) } n r
    | some .kMaxCacheDuration =>
      if params.max_cache_duration.isSome then
        throw (some (.kProtocolViolation, "MAX_CACHE_DURATION parameter appears twice"))
      else do
        let raw_value ← string_view_to_var_int value
        read_subscribe_parameters_loop
          { params with max_cache_duration := some (Duration.from_millis raw_value) } n r
    | some .kOackWindowSize =>
      if params.object_ack_window.isSome then
        throw (some (.kProtocolViolation, "OACK_WINDOW_SIZE parameter appears twice in SUBSCRIBE"))
      else do
        let raw_value ← string_view_to_var_int value
        read_subscribe_parameters_loop
          { params with object_ack_window := some (Duration.from_micros raw_value) } n r

/-- `MoqtControlParser::read_subscribe_parameters`. -/
def read_subscribe_parameters (r : DataReader) :
    ProcM (MoqtSubscribeParameters × DataReader) := do
  let (num_params, r) ← rdVarInt62 r
  read_subscribe_parameters_loop {} num_params r

/-- Version-list loop of `process_client_setup`. -/
def read_versions (acc : List Nat) (n : Nat) (r : DataReader) :
    ProcM (List Nat × DataReader) :=
  match n with
  | 0 => pure (acc, r)
  | n + 1 => do
    let (version, r) ← rdVarInt62 r
    read_versions (acc ++ [version]) n r

/-- Parameter loop of `MoqtControlParser::process_client_setup`. -/
def process_client_setup_params (uses_web_transport : Bool) (setup : MoqtClientSetup)
    (n : Nat) (r : DataReader) : ProcM (MoqtClientSetup × DataReader) :=
  match n with
  | 0 => pure (setup, r)
  | n + 1 => do
    let ((t, value), r) ← read_parameter r
    match MoqtSetupParameter.tryFrom t with
    | none => process_client_setup_params uses_web_transport setup n r
    | some .kRole =>
      if setup.role.isSome then
        throw (some (.kProtocolViolation, "ROLE parameter appears twice in SETUP"))
      else do
        let index ← string_view_to_var_int value
        match MoqtRole.tryFrom index with
        | some role =>
          process_client_setup_params uses_web_transport { setup with role := some role } n r
        | none => throw (some (.kProtocolViolation, "Invalid ROLE parameter"))
    | some .kPath =>
      if uses_web_transport then
        throw (some (.kProtocolViolation, "WebTransport connection is using PATH parameter in SETUP"))
      else if setup.path.isSome then
        throw (some (.kProtocolViolation, "PATH parameter appears twice in CLIENT_SETUP"))
      else
        process_client_setup_params uses_web_transport { setup with path := some value } n r
    | some .kMaxSubscribeId =>
      if setup.max_subscribe_id.isSome then
        throw (some (.kProtocolViolation, "MAX_SUBSCRIBE_ID parameter appears twice in SETUP"))
      else
        match string_view_to_var_int value with
        | .error e =>
          throw (latchErr e (.kProtocolViolation, "MAX_SUBSCRIBE_ID parameter is not a valid varint"))
        | .ok max_id =>
          process_client_setup_params uses_web_transport
            { setup with max_subscribe_id := some max_id } n r
    | some .kSupportObjectAcks => do
      let flag ← string_view_to_var_int value
      if flag > 1 then
        throw (some (.kProtocolViolation, "Invalid kSupportObjectAcks value"))
      else
        process_client_setup_params uses_web_transport
          { setup with supports_object_ack := flag = 1 } n r

/-- `MoqtControlParser::process_client_setup`. -/
def process_client_setup (uses_web_transport : Bool) (r : DataReader) :
    ProcM (MoqtControlParserEvent × Nat) := do
  let (number_of_supported_versions, r) ← rdVarInt62 r
  let (versions, r) ← read_versions [] number_of_supported_versions r
  let (num_params, r) ← rdVarInt62 r
  let (setup, r) ← process_client_setup_params uses_web_transport
    { supported_versions := versions } num_params r
  if setup.role.isNone then
    throw (some (.kProtocolViolation, "ROLE parameter missing from CLIENT_SETUP message"))
  else if ¬ uses_web_transport ∧ setup.path.isNone then
    throw (some (.kProtocolViolation, "PATH SETUP parameter missing from Client message over QUIC"))
  else
    pure (.onClientSetupMessage setup, r.bytes_read)

/-- Parameter loop of `MoqtControlParser::process_server_setup`. -/
def process_server_setup_params (setup : MoqtServerSetup) (n : Nat) (r : DataReader) :
    ProcM (MoqtServerSetup × DataReader) :=
  match n with
  | 0 => pure (setup, r)
  | n + 1 => do
    let ((t, value), r) ← read_parameter r
    match MoqtSetupParameter.tryFrom t with
    | none => process_server_setup_params setup n r
    | some .kRole =>
      if setup.role.isSome then
        throw (some (.kProtocolViolation, "ROLE parameter appears twice in SETUP"))
      else do
        let index ← string_view_to_var_int value
        match MoqtRole.tryFrom index with
        | some role => process_server_setup_params { setup with role := some role } n r
        | none => throw (some (.kProtocolViolation, "Invalid ROLE parameter"))
    | some .kPath =>
      throw (some (.kProtocolViolation, "PATH parameter in SERVER_SETUP"))
    | some .kMaxSubscribeId =>
      if setup.max_subscribe_id.isSome then
        throw (some (.kProtocolViolation, "MAX_SUBSCRIBE_ID parameter appears twice in SETUP"))
      else
        match string_view_to_var_int value with
        | .error e =>
          throw (latchErr e (.kProtocolViolation, "MAX_SUBSCRIBE_ID parameter is not a valid varint"))
        | .ok max_id =>
          process_server_setup_params { setup with max_subscribe_id := some max_id } n r
    | some .kSupportObjectAcks => do
      let flag ← string_view_to_var_int value
      if flag > 1 then
        throw (some (.kProtocolViolation, "Invalid kSupportObjectAcks value"))
      else
        process_server_setup_params { setup with supports_object_ack := flag = 1 } n r

/-- `MoqtControlParser::process_server_setup`. -/
def process_server_setup (r : DataReader) : ProcM (MoqtControlParserEvent × Nat) := do
  let (selected_version, r) ← rdVarInt62 r
  let (num_params, r) ← rdVarInt62 r
  let (setup, r) ← process_server_setup_params { selected_version } num_params r
  if setup.role.isNone then
    throw (some (.kProtocolViolation, "ROLE parameter missing from SERVER_SETUP message"))
  else
    pure (.onServerSetupMessage setup, r.bytes_read)

/-- `MoqtControlParser::process_subscribe`.  Note the range validation of
the source compares the WIRE value of `end_object` (not the decremented
one) against `start_object`. -/
def process_subscribe (r : DataReader) : ProcM (MoqtControlParserEvent × Nat) := do
  let (subscribe_id, r) ← rdVarInt62 r
  let (track_alias, r) ← rdVarInt62 r
  let (full_track_name, r) ← read_track_namespace r
  let (track_name, r) ← rdStringVarInt62 r
  let (subscriber_priority, r) ← rdUint8 r
  let (group_order_raw, r) ← rdUint8 r
  let (filter, r) ← rdVarInt62 r
  let full_track_name := full_track_name.add_element track_name
  let group_order ←
    match parse_delivery_order group_order_raw with
    | some g => pure g
    | none =>
      throw (some (.kProtocolViolation, "Invalid group order value in SUBSCRIBE message"))
  let filter_type ←
    match MoqtFilterType.tryFrom filter with
    | some f => pure f
    | none => throw none
  let base : MoqtSubscribe :=
    { subscribe_id, track_alias, full_track_name, subscriber_priority, group_order }
  let (subscribe_request, r) ←
    match filter_type with
    | .kLatestGroup => pure (({ base with start_object := some 0 } : MoqtSubscribe), r)
    | .kLatestObject => pure (base, r)
    | .kAbsoluteStart | .kAbsoluteRange => do
      let (start_group, r') ← rdVarInt62 r
      let (start_object, r') ← rdVarInt62 r'
      let base := { base with start_group := some start_group,
                              start_object := some start_object }
      if filter_type ≠ .kAbsoluteStart then do
        let (end_group, r') ← rdVarInt62 r'
        let (end_object, r') ← rdVarInt62 r'
        let base := { base with end_group := some end_group }
        if end_group < start_group then
          throw (some (.kProtocolViolation, "End group is less than start group"))
        else if end_object = 0 then
          pure (({ base with end_object := none } : MoqtSubscribe), r')
        else
          if start_group = end_group ∧ end_object < start_object then
            throw (some (.kProtocolViolation, "End object comes before start object"))
          else
            pure (({ base with end_object := some (end_object - 1) } : MoqtSubscribe), r')
      else
        pure (base, r')
    | _ =>
      throw (some (.kProtocolViolation, "Invalid filter type"))
  let (parameters, r) ← read_subscribe_parameters r
  pure (.onSubscribeMessage { subscribe_request with parameters }, r.bytes_read)

/-- `MoqtControlParser::process_subscribe_ok`.  The source converts the
wire value (a count of milliseconds per the protocol) with
`Duration::from_micros`. -/
def process_subscribe_ok (r : DataReader) : ProcM (MoqtControlParserEvent × Nat) := do
  let (subscribe_id, r) ← rdVarInt62 r
  let (milliseconds, r) ← rdVarInt62 r
  let (group_order_raw, r) ← rdUint8 r
  let (content_exists, r) ← rdUint8 r
  if content_exists > 1 then
    throw (some (.kProtocolViolation, "SUBSCRIBE_OK ContentExists has invalid value"))
  let expires := Duration.from_micros milliseconds
  let group_order ←
    match MoqtDeliveryOrder.tryFrom group_order_raw with
    | some g => pure g
    | none => throw (some (.kProtocolViolation, "Invalid group order value in SUBSCRIBE_OK"))
  let (largest_id, r) ←
    if content_exists ≠ 0 then do
      let (largest_id_group, r) ← rdVarInt62 r
      let (largest_id_object, r) ← rdVarInt62 r
      pure (some (FullSequence.new largest_id_group 0 largest_id_object), r)
    else
      pure ((none : Option FullSequence), r)
  let (parameters, r) ← read_subscribe_parameters r
  if parameters.authorization_info.isSome then
    throw (some (.kProtocolViolation, "SUBSCRIBE_OK has authorization info"))
  pure (.onSubscribeOkMessage
    { subscribe_id, expires, group_order, largest_id, parameters }, r.bytes_read)

/-- `MoqtControlParser::process_subscribe_error`. -/
def process_subscribe_error (r : DataReader) : ProcM (MoqtControlParserEvent × Nat) := do
  let (subscribe_id, r) ← rdVarInt62 r
  let (error_code_raw, r) ← rdVarInt62 r
  let (reason_phrase, r) ← rdStringVarInt62 r
  let (track_alias, r) ← rdVarInt62 r
  let error_code ←
    match SubscribeErrorCode.tryFrom error_code_raw with
    | some e => pure e
    | none => throw none
  pure (.onSubscribeErrorMessage
    { subscribe_id, error_code, reason_phrase, track_alias }, r.bytes_read)

/-- `MoqtControlParser::process_unsubscribe`. -/
def process_unsubscribe (r : DataReader) : ProcM (MoqtControlParserEvent × Nat) := do
  let (subscribe_id, r) ← rdVarInt62 r
  pure (.onUnsubscribeMessage { subscribe_id }, r.bytes_read)

/-- `MoqtControlParser::process_subscribe_done`. -/
def process_subscribe_done (r : DataReader) : ProcM (MoqtControlParserEvent × Nat) := do
  let (subscribe_id, r) ← rdVarInt62 r
  let (value, r) ← rdVarInt62 r
  let (reason_phrase, r) ← rdStringVarInt62 r
  let (content_exists, r) ← rdUint8 r
  let status_code ←
    match SubscribeDoneCode.tryFrom value with
    | some s => pure s
    | none => throw none
  if content_exists > 1 then
    throw (some (.kProtocolViolation, "SUBSCRIBE_DONE ContentExists has invalid value"))
  let (final_id, r) ←
    if content_exists = 1 then do
      let (final_id_group, r) ← rdVarInt62 r
      let (final_id_object, r) ← rdVarInt62 r
      pure (some (FullSequence.new final_id_group 0 final_id_object), r)
    else
      pure ((none : Option FullSequence), r)
  pure (.onSubscribeDoneMessage
    { subscribe_id, status_code, reason_phrase, final_id }, r.bytes_read)

/-- `MoqtControlParser::process_subscribe_update`.  The source decrements
`end_group` and `end_object` in place; the decremented values are bound
to fresh names here. -/
def process_subscribe_update (r : DataReader) : ProcM (MoqtControlParserEvent × Nat) := do
  let (subscribe_id, r) ← rdVarInt62 r
  let (start_group, r) ← rdVarInt62 r
  let (start_object, r) ← rdVarInt62 r
  let (end_group, r) ← rdVarInt62 r
  let (end_object, r) ← rdVarInt62 r
  let (subscriber_priority, r) ← rdUint8 r
  let (parameters, r) ← read_subscribe_parameters r
  let end_group_opt ←
    if end_group = 0 then
      if end_object > 0 then
        throw (some (.kProtocolViolation, "SUBSCRIBE_UPDATE has end_object but no end_group"))
      else
        pure (none : Option Nat)
    else
      let eg := end_group - 1
      if eg < start_group then
        throw (some (.kProtocolViolation, "End group is less than start group"))
      else
        pure (some eg)
  let end_object_opt ←
    if end_object > 0 then
      let eo := end_object - 1
      -- the source compares against the mutated `end_group` u64 (the
      -- decremented value when `end_group` was non-zero on the wire)
      if start_group = end_group - 1 ∧ eo < start_object then
        throw (some (.kProtocolViolation, "End object comes before start object"))
      else
        pure (some eo)
    else
      pure (none : Option Nat)
  if parameters.authorization_info.isSome then
    throw (some (.kProtocolViolation, "SUBSCRIBE_UPDATE has authorization info"))
  pure (.onSubscribeUpdateMessage
    { subscribe_id, start_group, start_object, end_group := end_group_opt,
      end_object := end_object_opt, subscriber_priority, parameters }, r.bytes_read)

/-- `MoqtControlParser::process_announce`. -/
def process_announce (r : DataReader) : ProcM (MoqtControlParserEvent × Nat) := do
  let (track_namespace, r) ← read_track_namespace r
  let (parameters, r) ← read_subscribe_parameters r
  if parameters.delivery_timeout.isSome then
    throw (some (.kProtocolViolation, "ANNOUNCE has delivery timeout"))
  pure (.onAnnounceMessage { track_namespace, parameters }, r.bytes_read)

/-- `MoqtControlParser::process_announce_ok`. -/
def process_announce_ok (r : DataReader) : ProcM (MoqtControlParserEvent × Nat) := do
  let (track_namespace, r) ← read_track_namespace r
  pure (.onAnnounceOkMessage { track_namespace }, r.bytes_read)

/-- `MoqtControlParser::process_announce_error`. -/
def process_announce_error (r : DataReader) : ProcM (MoqtControlParserEvent × Nat) := do
  let (track_namespace, r) ← read_track_namespace r
  let (error_code_raw, r) ← rdVarInt62 r
  let (reason_phrase, r) ← rdStringVarInt62 r
  let error_code ←
    match MoqtAnnounceErrorCode.tryFrom error_code_raw with
    | some e => pure e
    | none => throw none
  pure (.onAnnounceErrorMessage
    { track_namespace, error_code, reason_phrase }, r.bytes_read)

/-- `MoqtControlParser::process_announce_cancel`. -/
def process_announce_cancel (r : DataReader) : ProcM (MoqtControlParserEvent × Nat) := do
  let (track_namespace, r) ← read_track_namespace r
  let (error_code_raw, r) ← rdVarInt62 r
  let (reason_phrase, r) ← rdStringVarInt62 r
  let error_code ←
    match MoqtAnnounceErrorCode.tryFrom error_code_raw with
    | some e => pure e
    | none => throw none
  pure (.onAnnounceCancelMessage
    { track_namespace, error_code, reason_phrase }, r.bytes_read)

/-- `MoqtControlParser::process_track_status_request`. -/
def process_track_status_request (r : DataReader) :
    ProcM (MoqtControlParserEvent × Nat) := do
  let (full_track_name, r) ← read_track_namespace r
  let (name, r) ← rdStringVarInt62 r
  let full_track_name := full_track_name.add_element name
  pure (.onTrackStatusRequestMessage { full_track_name }, r.bytes_read)

/-- `MoqtControlParser::process_unannounce`. -/
def process_unannounce (r : DataReader) : ProcM (MoqtControlParserEvent × Nat) := do
  let (track_namespace, r) ← read_track_namespace r
  pure (.onUnannounceMessage { track_namespace }, r.bytes_read)

/-- `MoqtControlParser::process_track_status`. -/
def process_track_status (r : DataReader) : ProcM (MoqtControlParserEvent × Nat) := do
  let (full_track_name, r) ← read_track_namespace r
  let (name, r) ← rdStringVarInt62 r
  let full_track_name := full_track_name.add_element name
  let (value, r) ← rdVarInt62 r
  let (last_group, r) ← rdVarInt62 r
  let (last_object, r) ← rdVarInt62 r
  let status_code ←
    match MoqtTrackStatusCode.tryFrom value with
    | some s => pure s
    | none => throw none
  pure (.onTrackStatusMessage
    { full_track_name, status_code, last_group, last_object }, r.bytes_read)

/-- `MoqtControlParser::process_go_away`. -/
def process_go_away (r : DataReader) : ProcM (MoqtControlParserEvent × Nat) := do
  let (new_session_uri, r) ← rdStringVarInt62 r
  pure (.onGoAwayMessage { new_session_uri }, r.bytes_read)

/-- `MoqtControlParser::process_subscribe_announces`. -/
def process_subscribe_announces (r : DataReader) :
    ProcM (MoqtControlParserEvent × Nat) := do
  let (track_namespace, r) ← read_track_namespace r
  let (parameters, r) ← read_subscribe_parameters r
  pure (.onSubscribeAnnouncesMessage { track_namespace, parameters }, r.bytes_read)

/-- `MoqtControlParser::process_subscribe_announces_ok`. -/
def process_subscribe_announces_ok (r : DataReader) :
    ProcM (MoqtControlParserEvent × Nat) := do
  let (track_namespace, r) ← read_track_namespace r
  pure (.onSubscribeAnnouncesOkMessage { track_namespace }, r.bytes_read)

/-- `MoqtControlParser::process_subscribe_announces_error`. -/
def process_subscribe_announces_error (r : DataReader) :
    ProcM (MoqtControlParserEvent × Nat) := do
  let (track_namespace, r) ← read_track_namespace r
  let (error_code_raw, r) ← rdVarInt62 r
  let (reason_phrase, r) ← rdStringVarInt62 r
  let error_code ←
    match SubscribeErrorCode.tryFrom error_code_raw with
    | some e => pure e
    | none => throw none
  pure (.onSubscribeAnnouncesErrorMessage
    { track_namespace, error_code, reason_phrase }, r.bytes_read)

/-- `MoqtControlParser::process_unsubscribe_announces`. -/
def process_unsubscribe_announces (r : DataReader) :
    ProcM (MoqtControlParserEvent × Nat) := do
  let (track_namespace, r) ← read_track_namespace r
  pure (.onUnsubscribeAnnouncesMessage { track_namespace }, r.bytes_read)

/-- `MoqtControlParser::process_max_subscribe_id`. -/
def process_max_subscribe_id (r : DataReader) :
    ProcM (MoqtControlParserEvent × Nat) := do
  let (max_subscribe_id, r) ← rdVarInt62 r
  pure (.onMaxSubscribeIdMessage { max_subscribe_id }, r.bytes_read)

/-- `MoqtControlParser::process_fetch`. -/
def process_fetch (r : DataReader) : ProcM (MoqtControlParserEvent × Nat) := do
  let (subscribe_id, r) ← rdVarInt62 r
  let (full_track_name, r) ← read_track_namespace r
  let (track_name, r) ← rdStringVarInt62 r
  let (subscriber_priority, r) ← rdUint8 r
  let (group_order_raw, r) ← rdUint8 r
  let (start_object_group, r) ← rdVarInt62 r
  let (start_object_object, r) ← rdVarInt62 r
  let (end_group, r) ← rdVarInt62 r
  let (end_object_raw, r) ← rdVarInt62 r
  let (parameters, r) ← read_subscribe_parameters r
  let full_track_name := full_track_name.add_element track_name
  let group_order ←
    match parse_delivery_order group_order_raw with
    | some g => pure g
    | none => throw none
  let end_object := if end_object_raw = 0 then none else some (end_object_raw - 1)
  if end_group < start_object_group ∨
      (end_group = start_object_group ∧ end_object.isSome ∧
        end_object.getD 0 < start_object_object) then
    throw (some (.kProtocolViolation, "End object comes before start object in FETCH"))
  pure (.onFetchMessage
    { subscribe_id, full_track_name, subscriber_priority, group_order,
      start_object := FullSequence.new start_object_group 0 start_object_object,
      end_group, end_object, parameters }, r.bytes_read)

/-- `MoqtControlParser::process_fetch_cancel`. -/
def process_fetch_cancel (r : DataReader) : ProcM (MoqtControlParserEvent × Nat) := do
  let (subscribe_id, r) ← rdVarInt62 r
  pure (.onFetchCancelMessage { subscribe_id }, r.bytes_read)

/-- `MoqtControlParser::process_fetch_ok`.  Note the bitwise NOT (`!` on
`u64`) the source applies to both components of `largest_id`. -/
def process_fetch_ok (r : DataReader) : ProcM (MoqtControlParserEvent × Nat) := do
  let (subscribe_id, r) ← rdVarInt62 r
  let (group_order_raw, r) ← rdUint8 r
  let (largest_id_group_raw, r) ← rdVarInt62 r
  let largest_id_group := u64Not largest_id_group_raw
  let (largest_id_object_raw, r) ← rdVarInt62 r
  let largest_id_object := u64Not largest_id_object_raw
  let (parameters, r) ← read_subscribe_parameters r
  let group_order ←
    match MoqtDeliveryOrder.tryFrom group_order_raw with
    | some g => pure g
    | none => throw (some (.kProtocolViolation, "Invalid group order value in FETCH_OK"))
  pure (.onFetchOkMessage
    { subscribe_id, group_order,
      largest_id := FullSequence.new largest_id_group 0 largest_id_object,
      parameters }, r.bytes_read)

/-- `MoqtControlParser::process_fetch_error`. -/
def process_fetch_error (r : DataReader) : ProcM (MoqtControlParserEvent × Nat) := do
  let (subscribe_id, r) ← rdVarInt62 r
  let (error_code_raw, r) ← rdVarInt62 r
  let (reason_phrase, r) ← rdStringVarInt62 r
  let error_code ←
    match SubscribeErrorCode.tryFrom error_code_raw with
    | some e => pure e
    | none => throw none
  pure (.onFetchErrorMessage
    { subscribe_id, error_code, reason_phrase }, r.bytes_read)

/-- `MoqtControlParser::process_object_ack`. -/
def process_object_ack (r : DataReader) : ProcM (MoqtControlParserEvent × Nat) := do
  let (subscribe_id, r) ← rdVarInt62 r
  let (group_id, r) ← rdVarInt62 r
  let (object_id, r) ← rdVarInt62 r
  let (raw_delta, r) ← rdVarInt62 r
  let delta_from_deadline :=
    Duration.from_micros (signed_varint_unserialized_form raw_delta)
  pure (.onObjectAckMessage
    { subscribe_id, group_id, object_id, delta_from_deadline }, r.bytes_read)

/-- The dispatch `match` of `MoqtControlParser::process_message`. -/
def dispatch_message (t : MoqtMessageType) (uses_web_transport : Bool)
    (r : DataReader) : ProcM (MoqtControlParserEvent × Nat) :=
  match t with
  | .kClientSetup => process_client_setup uses_web_transport r
  | .kServerSetup => process_server_setup r
  | .kSubscribe => process_subscribe r
  | .kSubscribeOk => process_subscribe_ok r
  | .kSubscribeError => process_subscribe_error r
  | .kUnsubscribe => process_unsubscribe r
  | .kSubscribeDone => process_subscribe_done r
  | .kSubscribeUpdate => process_subscribe_update r
  | .kAnnounce => process_announce r
  | .kAnnounceOk => process_announce_ok r
  | .kAnnounceError => process_announce_error r
  | .kAnnounceCancel => process_announce_cancel r
  | .kTrackStatusRequest => process_track_status_request r
  | .kUnannounce => process_unannounce r
  | .kTrackStatus => process_track_status r
  | .kGoAway => process_go_away r
  | .kSubscribeAnnounces => process_subscribe_announces r
  | .kSubscribeAnnouncesOk => process_subscribe_announces_ok r
  | .kSubscribeAnnouncesError => process_subscribe_announces_error r
  | .kUnsubscribeAnnounces => process_unsubscribe_announces r
  | .kMaxSubscribeId => process_max_subscribe_id r
  | .kFetch => process_fetch r
  | .kFetchCancel => process_fetch_cancel r
  | .kFetchOk => process_fetch_ok r
  | .kFetchError => process_fetch_error r
  | .kObjectAck => process_object_ack r

/-- The parser state (`MoqtControlParser`): visitor callbacks are
modelled as an event list. -/
structure MoqtControlParser where
  events : List MoqtControlParserEvent := []
  uses_web_transport : Bool := false
  no_more_data : Bool := false
  parsing_error : Bool := false
  buffered_message : Option (List Nat) := none
  processing : Bool := false
deriving Repr, DecidableEq

/-- `MoqtControlParser::parse_error`: pushes at most one
`OnParsingError` and latches. -/
def MoqtControlParser.parse_error (p : MoqtControlParser) (e : MoqtError)
    (reason : String) : MoqtControlParser :=
  if p.parsing_error then p
  else { p with no_more_data := true, parsing_error := true,
                events := p.events ++ [.onParsingError e reason] }

/-- `MoqtControlParser::process_message`: reads type and payload length,
bounds-checks, dispatches, then verifies the decoder consumed exactly
`length` payload bytes.  Returns `none` for the source's `Err(..)` (the
caller treats it as zero bytes processed). -/
def MoqtControlParser.process_message (p : MoqtControlParser) (r : DataReader) :
    MoqtControlParser × Option Nat :=
  match r.read_var_int62 with
  | none => (p, none)
  | some (value, r) =>
    match r.read_var_int62 with
    | none => (p, none)
    | some (length, r) =>
      if length > r.remaining then (p, none)
      else
        match MoqtMessageType.tryFrom value with
        | none => (p, none)
        | some t =>
          let message_header_length := r.bytes_read
          match dispatch_message t p.uses_web_transport r with
          | .error none => (p, none)
          | .error (some (err, reason)) => (p.parse_error err reason, none)
          | .ok (ev, bytes_read) =>
            let p := { p with events := p.events ++ [ev] }
            if bytes_read - message_header_length ≠ length then
              (p.parse_error .kProtocolViolation
                "Message length does not match payload length", none)
            else (p, some bytes_read)

/-- The `while bm.has_remaining()` loop of `process_data`.  `fuel` is a
structural-recursion bound: every successful `process_message` consumes
at least two bytes, so `bm.length + 1` fuel can never be exhausted. -/
def MoqtControlParser.process_loop (p : MoqtControlParser) (fuel : Nat)
    (bm : List Nat) (fin : Bool) : MoqtControlParser × List Nat :=
  match fuel with
  | 0 => (p, bm)
  | fuel + 1 =>
    if bm.isEmpty then (p, bm)
    else
      let (p, res) := p.process_message ⟨0, bm⟩
      let message_len := res.getD 0
      if message_len = 0 then
        if bm.length > kMaxMessageHeaderSize then
          (p.parse_error .kInternalError "Cannot parse non-OBJECT messages > 2KB", bm)
        else if fin then
          (p.parse_error .kProtocolViolation "FIN after incomplete message", bm)
        else (p, bm)
      else
        p.process_loop fuel (bm.drop message_len) fin

/-- `MoqtControlParser::process_data`. -/
def MoqtControlParser.process_data (p : MoqtControlParser) (data : List Nat)
    (fin : Bool) : MoqtControlParser :=
  let p := if p.no_more_data then
      p.parse_error .kProtocolViolation "Data after end of stream"
    else p
  if p.processing then p
  else
    let p := if fin then { p with no_more_data := true } else p
    if fin ∧ p.buffered_message.isSome ∧ data.isEmpty then
      p.parse_error .kProtocolViolation "End of stream before complete message"
    else
      match p.buffered_message, data.isEmpty with
      | none, true => p
      | buf, _ =>
        let bm := buf.getD [] ++ data
        let p := { p with processing := true, buffered_message := none }
        let (p, bm) := p.process_loop (bm.length + 1) bm fin
        { p with buffered_message := if bm.isEmpty then none else some bm,
                 processing := false }

/-- A fresh parser (`MoqtControlParser::new`). -/
def MoqtControlParser.new (uses_web_transport : Bool) : MoqtControlParser :=
  { uses_web_transport }

/-! ## moqt_framer.rs and serde/wire_serialization.rs : the framer

A *wire field* answers `get_length_on_wire` and `serialize_into_writer`
(the `WireType` trait).  The compound wire types of the framer
(`WireFullTrackName`, `WireSubscribeParameterList`, `WireIntParameter`,
`WireStringParameter`, `WireSpan`) are expanded into flat field lists. -/

inductive WireField
  | varInt62 (v : Nat)
  | uint8 (v : Nat)
  | stringVarInt62 (s : List Nat)
deriving Repr, DecidableEq

/-- `WireType::get_length_on_wire` for the three primitive field kinds
(`WireVarInt62`, `WireUint8`, `WireStringWithVarInt62Length`). -/
def WireField.get_length_on_wire : WireField → Nat
  | .varInt62 v => DataWriter.get_var_int62_len v
  | .uint8 _ => 1
  | .stringVarInt62 s => DataWriter.get_var_int62_len s.length + s.length

/-- `WireType::serialize_into_writer`.  `WireUint8` goes through
`WireFixedSizeIntBase`, which ignores the `write_bytes` result and
returns `true`. -/
def WireField.serialize_into_writer : WireField → DataWriter → Bool × DataWriter
  | .varInt62 v, w => w.write_var_int62 v
  | .uint8 v, w => (true, (w.write_bytes [v]).2)
  | .stringVarInt62 s, w =>
    match w.write_var_int62 s.length with
    | (false, w) => (false, w)
    | (true, w) => w.write_bytes s

/-- `serialize_into_writer!` over a field list: stops at the first
failure. -/
def serialize_fields (w : DataWriter) : List WireField → Bool × DataWriter
  | [] => (true, w)
  | f :: fs =>
    match f.serialize_into_writer w with
    | (false, w) => (false, w)
    | (true, w) => serialize_fields w fs

/-- `compute_length_on_wire!`. -/
def wire_length (fields : List WireField) : Nat :=
  (fields.map WireField.get_length_on_wire).sum

/-- The `serialize_control_message!` macro: compute the payload length,
allocate `[type][payload_len][payload]` exactly, write, and return the
empty buffer when serialization fails or under-fills the buffer. -/
def serialize_control_message (t : MoqtMessageType) (fields : List WireField) :
    List Nat :=
  let message_type := WireField.varInt62 t.wireValue
  let payload_size := wire_length fields
  let buffer_size :=
    payload_size + wire_length [message_type, .varInt62 payload_size]
  if buffer_size = 0 then []
  else
    let w : DataWriter := ⟨buffer_size, []⟩
    let (result, w) :=
      serialize_fields w (message_type :: .varInt62 payload_size :: fields)
    if ¬ result ∨ w.remaining ≠ 0 then []
    else w.data

/-- `wire_delivery_order` of `moqt_framer.rs`. -/
def wire_delivery_order (delivery_order : Option MoqtDeliveryOrder) : WireField :=
  match delivery_order with
  | some .kAscending => .uint8 0x01
  | some .kDescending => .uint8 0x02
  | none => .uint8 0x00

/-- `signed_var_int_serialized_form` of `moqt_framer.rs` (argument here
as a signed integer). -/
def signed_var_int_serialized_form (value : Int) : Nat :=
  if value < 0 then ((-value).toNat <<< 1) ||| 0x01
  else value.toNat <<< 1

/-- `WireIntParameter`: key, length of the inner varint, value. -/
def wire_int_parameter (p : Nat × Nat) : List WireField :=
  [.varInt62 p.1, .varInt62 (DataWriter.get_var_int62_len p.2), .varInt62 p.2]

/-- `WireStringParameter`: key, varint-length-prefixed value. -/
def wire_string_parameter (p : Nat × List Nat) : List WireField :=
  [.varInt62 p.1, .stringVarInt62 p.2]

/-- `WireFullTrackName`: the element count excludes the final name
element when `includes_name`, but the span writes every element. -/
def wire_full_track_name (name : FullTrackName) (includes_name : Bool) :
    List WireField :=
  let num_elements := if includes_name then name.tuple.length - 1 else name.tuple.length
  .varInt62 num_elements :: name.tuple.map WireField.stringVarInt62

/-- `WireSubscribeParameterList`: count, then string parameters
(authorization info), then integer parameters (delivery timeout and max
cache duration in milliseconds, object-ack window in microseconds).
The source asserts the durations are non-zero before encoding them. -/
def wire_subscribe_parameter_list (params : MoqtSubscribeParameters) :
    List WireField :=
  let string_parameters : List (Nat × List Nat) :=
    match params.authorization_info with
    | some authorization_info =>
      [(MoqtTrackRequestParameter.kAuthorizationInfo.wireValue, authorization_info)]
    | none => []
  let int_parameters : List (Nat × Nat) :=
    (match params.delivery_timeout with
     | some delivery_timeout =>
       [(MoqtTrackRequestParameter.kDeliveryTimeout.wireValue,
         delivery_timeout.as_millis)]
     | none => []) ++
    (match params.max_cache_duration with
     | some max_cache_duration =>
       [(MoqtTrackRequestParameter.kMaxCacheDuration.wireValue,
         max_cache_duration.as_millis)]
     | none => []) ++
    (match params.object_ack_window with
     | some object_ack_window =>
       [(MoqtTrackRequestParameter.kOackWindowSize.wireValue,
         object_ack_window.as_micros)]
     | none => [])
  [WireField.varInt62 (string_parameters.length + int_parameters.length)]
    ++ (string_parameters.map wire_string_parameter).flatten
    ++ (int_parameters.map wire_int_parameter).flatten

/-- The framer (`MoqtFramer`), stateless apart from `using_webtrans`. -/
structure MoqtFramer where
  using_webtrans : Bool
deriving Repr, DecidableEq

/-- `MoqtFramer::serialize_client_setup`. -/
def MoqtFramer.serialize_client_setup (f : MoqtFramer) (message : MoqtClientSetup) :
    List Nat :=
  let int_parameters : List (Nat × Nat) :=
    (match message.role with
     | some role => [(MoqtSetupParameter.kRole.wireValue, role.wireValue)]
     | none => []) ++
    (match message.max_subscribe_id with
     | some max_subscribe_id =>
       [(MoqtSetupParameter.kMaxSubscribeId.wireValue, max_subscribe_id)]
     | none => []) ++
    (if message.supports_object_ack then
       [(MoqtSetupParameter.kSupportObjectAcks.wireValue, 1)]
     else [])
  let string_parameters : List (Nat × List Nat) :=
    if ¬ f.using_webtrans then
      match message.path with
      | some path => [(MoqtSetupParameter.kPath.wireValue, path)]
      | none => []
    else []
  serialize_control_message .kClientSetup
    ([.varInt62 message.supported_versions.length]
      ++ message.supported_versions.map WireField.varInt62
      ++ [.varInt62 (string_parameters.length + int_parameters.length)]
      ++ (int_parameters.map wire_int_parameter).flatten
      ++ (string_parameters.map wire_string_parameter).flatten)

/-- `MoqtFramer::serialize_server_setup`. -/
def MoqtFramer.serialize_server_setup (message : MoqtServerSetup) : List Nat :=
  let int_parameters : List (Nat × Nat) :=
    (match message.role with
     | some role => [(MoqtSetupParameter.kRole.wireValue, role.wireValue)]
     | none => []) ++
    (match message.max_subscribe_id with
     | some max_subscribe_id =>
       [(MoqtSetupParameter.kMaxSubscribeId.wireValue, max_subscribe_id)]
     | none => []) ++
    (if message.supports_object_ack then
       [(MoqtSetupParameter.kSupportObjectAcks.wireValue, 1)]
     else [])
  serialize_control_message .kServerSetup
    ([.varInt62 message.selected_version,
      .varInt62 int_parameters.length]
      ++ (int_parameters.map wire_int_parameter).flatten)

/-- `MoqtFramer::serialize_subscribe_ok`: the `expires` duration is
framed as its count of milliseconds. -/
def MoqtFramer.serialize_subscribe_ok (message : MoqtSubscribeOk) : List Nat :=
  if message.parameters.authorization_info.isSome then []
  else
    match message.largest_id with
    | some largest_id =>
      serialize_control_message .kSubscribeOk
        ([.varInt62 message.subscribe_id,
          .varInt62 message.expires.as_millis,
          wire_delivery_order (some message.group_order),
          .uint8 1,
          .varInt62 largest_id.group,
          .varInt62 largest_id.object]
          ++ wire_subscribe_parameter_list message.parameters)
    | none =>
      serialize_control_message .kSubscribeOk
        ([.varInt62 message.subscribe_id,
          .varInt62 message.expires.as_millis,
          wire_delivery_order (some message.group_order),
          .uint8 0]
          ++ wire_subscribe_parameter_list message.parameters)

/-- `MoqtFramer::serialize_unsubscribe`. -/
def MoqtFramer.serialize_unsubscribe (message : MoqtUnsubscribe) : List Nat :=
  serialize_control_message .kUnsubscribe [.varInt62 message.subscribe_id]

/-- `MoqtFramer::serialize_fetch_ok`: `largest_id.group` and
`largest_id.object` are framed as plain VarInt62 values. -/
def MoqtFramer.serialize_fetch_ok (message : MoqtFetchOk) : List Nat :=
  serialize_control_message .kFetchOk
    ([.varInt62 message.subscribe_id,
      wire_delivery_order (some message.group_order),
      .varInt62 message.largest_id.group,
      .varInt62 message.largest_id.object]
      ++ wire_subscribe_parameter_list message.parameters)

/-! ## Claim theorems -/

/-- C1: the claim states that for every control message variant,
frame-then-parse yields exactly one event whose message equals the
original.  The code violates this: `process_fetch_ok` applies bitwise NOT
to both components of `largest_id`, so for a FETCH_OK with
`largest_id = (10, 20)` the single parsed event carries
`largest_id = (2^64-11, 2^64-21)`, not the original message.  This
theorem evaluates the code at that failing input. -/
theorem claim_C1 :
    ((MoqtControlParser.new true).process_data
        (MoqtFramer.serialize_fetch_ok
          { subscribe_id := 1, group_order := .kAscending, largest_id := ⟨10, 0, 20⟩ })
        false).events
      = [MoqtControlParserEvent.onFetchOkMessage
          { subscribe_id := 1, group_order := .kAscending,
            largest_id := ⟨18446744073709551605, 0, 18446744073709551595⟩ }] ∧
    MoqtControlParserEvent.onFetchOkMessage
        { subscribe_id := 1, group_order := .kAscending,
          largest_id := ⟨18446744073709551605, 0, 18446744073709551595⟩ }
      ≠ MoqtControlParserEvent.onFetchOkMessage
          { subscribe_id := 1, group_order := .kAscending, largest_id := ⟨10, 0, 20⟩ } := by
  decide

/-- C3: the claim states the parser decodes `largest_group` and
`largest_object` of FETCH_OK as plain VarInt62 values, so frame-then-parse
preserves `largest_id`.  The code bitwise-NOTs both (`!reader.read_var_int62()?`
in `process_fetch_ok`): framing `largest_id = (2, 3)` and parsing back
yields `largest_id = (u64Not 2, u64Not 3)`.  This theorem evaluates the
code at that failing input. -/
theorem claim_C3 :
    ((MoqtControlParser.new true).process_data
        (MoqtFramer.serialize_fetch_ok
          { subscribe_id := 6, group_order := .kDescending, largest_id := ⟨2, 0, 3⟩ })
        false).events
      = [MoqtControlParserEvent.onFetchOkMessage
          { subscribe_id := 6, group_order := .kDescending,
            largest_id := ⟨u64Not 2, 0, u64Not 3⟩ }] ∧
    u64Not 2 ≠ 2 ∧ u64Not 3 ≠ 3 := by
  decide

/-- C4: the claim states the wire `expires` field of SUBSCRIBE_OK is a
count of milliseconds and the parsed `MoqtSubscribeOk` carries a duration
of that many milliseconds.  The framer writes `expires.as_millis()`, but
`process_subscribe_ok` converts the wire value with
`Duration::from_micros`: a message with `expires` of 2000 ms frames the
wire value 2000 and parses back to a 2000-microsecond duration, so
frame-then-parse divides `expires` by 1000.  This theorem evaluates the
code at that failing input. -/
theorem claim_C4 :
    ((MoqtControlParser.new true).process_data
        (MoqtFramer.serialize_subscribe_ok
          { subscribe_id := 1, expires := Duration.from_millis 2000,
            group_order := .kAscending, largest_id := none })
        false).events
      = [MoqtControlParserEvent.onSubscribeOkMessage
          { subscribe_id := 1, expires := Duration.from_micros 2000,
            group_order := .kAscending, largest_id := none }] ∧
    Duration.from_micros 2000 ≠ Duration.from_millis 2000 := by
  decide

/-- C5: the claim states the parser sets `supports_object_ack` exactly
when a setup message carries a parameter with key `0xbbf1439` and value 1,
so frame-then-parse preserves the flag.  The framer does emit key
`0xbbf1439` (the declared discriminant of `kSupportObjectAcks`), but
`MoqtSetupParameter::try_from` matches `0x3` instead of `0xbbf1439`, so
the parser skips the parameter and the flag is lost.  This theorem
evaluates the code at that failing input. -/
theorem claim_C5 :
    ((MoqtControlParser.new true).process_data
        ((MoqtFramer.mk true).serialize_client_setup
          { supported_versions := [1], role := some .kPubSub,
            supports_object_ack := true })
        false).events
      = [MoqtControlParserEvent.onClientSetupMessage
          { supported_versions := [1], role := some .kPubSub,
            supports_object_ack := false }] ∧
    MoqtSetupParameter.kSupportObjectAcks.wireValue = 0xbbf1439 ∧
    MoqtSetupParameter.tryFrom 0xbbf1439 = none ∧
    MoqtSetupParameter.tryFrom 0x3 = some .kSupportObjectAcks := by
  decide

/-- C6 counterexample: the claim asserts that the input
`07 05 02 66 6f 6f 00` makes the parser emit a
ProtocolViolation("length mismatch").  It does not: the ANNOUNCE_OK body
decoder fails for lack of data (it never "consumes a number of bytes
different from the declared length"), so without fin the parser emits no
event at all, and with fin it emits ProtocolViolation with the distinct
reason "FIN after incomplete message". -/
theorem claim_C6_counterexample :
    ((MoqtControlParser.new true).process_data
        [0x07, 0x05, 0x02, 0x66, 0x6f, 0x6f, 0x00] false).events = [] ∧
    ((MoqtControlParser.new true).process_data
        [0x07, 0x05, 0x02, 0x66, 0x6f, 0x6f, 0x00] true).events
      = [MoqtControlParserEvent.onParsingError .kProtocolViolation
          "FIN after incomplete message"] := by
  decide

/-- C6 (amended): whenever the message header parses (recognized type
tag, declared payload length within the buffered bytes) and the
message-specific decoder SUCCEEDS consuming a number of payload bytes
different from the declared payload length, a not-yet-errored parser
appends the decoded event followed by the ProtocolViolation parsing
error "Message length does not match payload length" and reports no
bytes consumed. -/
theorem claim_C6 (p : MoqtControlParser) (r r1 r2 : DataReader)
    (value length : Nat) (t : MoqtMessageType) (ev : MoqtControlParserEvent)
    (n : Nat)
    (h1 : r.read_var_int62 = some (value, r1))
    (h2 : r1.read_var_int62 = some (length, r2))
    (h3 : ¬ length > r2.remaining)
    (h4 : MoqtMessageType.tryFrom value = some t)
    (h5 : dispatch_message t p.uses_web_transport r2 = .ok (ev, n))
    (h6 : n - r2.bytes_read ≠ length)
    (h7 : p.parsing_error = false) :
    p.process_message r =
      ({ p with
          events := p.events ++ [ev, .onParsingError .kProtocolViolation
            "Message length does not match payload length"],
          no_more_data := true, parsing_error := true }, none) := by
  simp only [MoqtControlParser.process_message, h1, h2, h4, h5, if_neg h3, if_pos h6]
  simp [MoqtControlParser.parse_error, h7]

/-- Witness for C6 at the input `0a 02 03 00`: UNSUBSCRIBE declares
payload length 2 but its decoder consumes 1 byte. -/
theorem claim_C6_witness :
    (MoqtControlParser.new true).process_message ⟨0, [0x0a, 0x02, 0x03, 0x00]⟩ =
      ({ (MoqtControlParser.new true) with
          events := [.onUnsubscribeMessage ⟨3⟩,
            .onParsingError .kProtocolViolation
              "Message length does not match payload length"],
          no_more_data := true, parsing_error := true }, none) := by
  have h := claim_C6 (MoqtControlParser.new true) ⟨0, [0x0a, 0x02, 0x03, 0x00]⟩
    ⟨1, [0x02, 0x03, 0x00]⟩ ⟨2, [0x03, 0x00]⟩ 0x0a 2 .kUnsubscribe
    (.onUnsubscribeMessage ⟨3⟩) 3 rfl rfl (by decide) rfl rfl (by decide) rfl
  simpa using h

/-- C7: the claim states the parser rejects (ProtocolViolation) every
kAbsoluteRange SUBSCRIBE in which `end_group = start_group` and the
decoded `end_object` (wire value minus one) is less than `start_object`.
The code compares the WIRE value of `end_object` against `start_object`
instead of the decoded one, so the boundary case wire `end_object =
start_object` (decoded `start_object - 1 < start_object`) is accepted:
this theorem evaluates the code at such an input (start=(1,5), end=(1,
wire 5 → decoded 4)) and shows the message event is emitted with
`end_object = 4 < 5` and no error. -/
theorem claim_C7 :
    ((MoqtControlParser.new true).process_data
        [0x03, 0x0f, 0x01, 0x02, 0x01, 0x01, 0x66, 0x01, 0x67, 0x14, 0x01, 0x04,
         0x01, 0x05, 0x01, 0x05, 0x00] false).events
      = [MoqtControlParserEvent.onSubscribeMessage
          { subscribe_id := 1, track_alias := 2,
            full_track_name := ⟨[[0x66], [0x67]]⟩, subscriber_priority := 0x14,
            group_order := some .kAscending, start_group := some 1,
            start_object := some 5, end_group := some 1, end_object := some 4 }] ∧
    (4 : Nat) < 5 := by
  decide

/-- C8: the claim states `get_filter_type` returns `kAbsoluteStart` only
when neither `end_group` nor `end_object` is present; in particular a
message with both start and end present and end equal to start must not
derive `kAbsoluteStart`.  The code returns `kAbsoluteStart` exactly
there: this theorem evaluates `get_filter_type` at start=(1,2),
end=(1,2). -/
theorem claim_C8 :
    get_filter_type
      { start_group := some 1, start_object := some 2,
        end_group := some 1, end_object := some 2 } = .kAbsoluteStart := by
  decide

/-- C9: the claim states that once the parser has entered the error or
end-of-stream state, no subsequent `process_data` call ever emits a
message event.  The code's `process_data` pushes the "Data after end of
stream" ProtocolViolation but then continues (no early return), buffers
the new bytes and parses them: after UNSUBSCRIBE(3) with fin, feeding
UNSUBSCRIBE(4) yields the error event FOLLOWED BY a new message event.
This theorem evaluates the code at that failing input. -/
theorem claim_C9 :
    (((MoqtControlParser.new true).process_data [0x0a, 0x01, 0x03] true).process_data
        [0x0a, 0x01, 0x04] false).events
      = [MoqtControlParserEvent.onUnsubscribeMessage ⟨3⟩,
         MoqtControlParserEvent.onParsingError .kProtocolViolation
           "Data after end of stream",
         MoqtControlParserEvent.onUnsubscribeMessage ⟨4⟩] := by
  decide

/-- C10 counterexample: an unknown-key parameter is NOT always skipped
silently; its value must also be valid UTF-8 (the parser materializes
parameter values as Rust `String`s).  An ANNOUNCE whose unknown parameter
(key 0x05) has value byte `0xff` parses to nothing, while the same bytes
with that parameter removed and the count decremented parse to the
ANNOUNCE event — so the two parses are not identical as the claim
requires. -/
theorem claim_C10_counterexample :
    ((MoqtControlParser.new true).process_data
        [0x06, 0x07, 0x01, 0x01, 0x66, 0x01, 0x05, 0x01, 0xff] false).events = [] ∧
    ((MoqtControlParser.new true).process_data
        [0x06, 0x04, 0x01, 0x01, 0x66, 0x00] false).events
      = [MoqtControlParserEvent.onAnnounceMessage
          { track_namespace := ⟨[[0x66]]⟩, parameters := {} }] := by
  decide

/-- C10 (amended): in both parameter-list decoders (track-request
parameters via `read_subscribe_parameters` and setup parameters via the
`process_client_setup` loop), a parameter that reads back successfully
(key and length-prefixed value consumed, value valid UTF-8) but whose key
does not decode to a known parameter enum value is skipped silently: the
decoder behaves on the remaining input exactly as it does on the same
bytes with that parameter removed and the count decremented, so the
parsed message is identical. -/
theorem claim_C10 :
    (∀ (params : MoqtSubscribeParameters) (n : Nat) (pb tail : List Nat)
       (c t : Nat) (v : List Nat),
       read_parameter ⟨c, pb ++ tail⟩ = .ok ((t, v), ⟨c + pb.length, tail⟩) →
       MoqtTrackRequestParameter.tryFrom t = none →
       read_subscribe_parameters_loop params (n + 1) ⟨c, pb ++ tail⟩ =
         read_subscribe_parameters_loop params n ⟨c + pb.length, tail⟩) ∧
    (∀ (uses_web_transport : Bool) (setup : MoqtClientSetup) (n : Nat)
       (pb tail : List Nat) (c t : Nat) (v : List Nat),
       read_parameter ⟨c, pb ++ tail⟩ = .ok ((t, v), ⟨c + pb.length, tail⟩) →
       MoqtSetupParameter.tryFrom t = none →
       process_client_setup_params uses_web_transport setup (n + 1) ⟨c, pb ++ tail⟩ =
         process_client_setup_params uses_web_transport setup n ⟨c + pb.length, tail⟩) := by
  constructor
  · intro params n pb tail c t v h1 h2
    simp only [read_subscribe_parameters_loop, h1, h2, bind, Except.bind]
  · intro uses_web_transport setup n pb tail c t v h1 h2
    simp only [process_client_setup_params, h1, h2, bind, Except.bind]

/-- Witness for C10: skipping the concrete unknown parameter
`05 01 61` (key 5, value "a") in both loops. -/
theorem claim_C10_witness :
    read_subscribe_parameters_loop {} 1 ⟨7, [0x05, 0x01, 0x61]⟩ =
      read_subscribe_parameters_loop {} 0 ⟨10, []⟩ ∧
    process_client_setup_params true {} 1 ⟨7, [0x05, 0x01, 0x61]⟩ =
      process_client_setup_params true {} 0 ⟨10, []⟩ := by
  constructor
  · have h := claim_C10.1 {} 0 [0x05, 0x01, 0x61] [] 7 5 [0x61] (by rfl) (by rfl)
    simpa using h
  · have h := claim_C10.2 true {} 0 [0x05, 0x01, 0x61] [] 7 5 [0x61] (by rfl) (by rfl)
    simpa using h

end Moqt
